import Mathlib

/-!
Verification development for the per-call session orchestrator of the
`index-voicebot-betty` repository (`src/server.js`).

The JavaScript source is shallowly embedded: pure helper functions become
Lean functions on `String` / `List Char`, the per-connection mutable
closure state becomes explicit state records, and each event handler
becomes a state-transition function.  Machine times (`Date.now()`) are
modelled as `Nat` milliseconds.  Regular-expression tests from the source
are embedded as executable scanning functions; JavaScript `\b` boundaries
use the ASCII word-character class `[A-Za-z0-9_]`, exactly as the
engine evaluates them (Hebrew letters are not word characters).
-/

namespace VoiceBot

/-- ASCII apostrophe (written via its code point). -/
def apoChar : Char := Char.ofNat 39

/-- ASCII double quote (written via its code point). -/
def dqChar : Char := Char.ofNat 34

/-- JS regex word character class `[A-Za-z0-9_]`, used by `\b`. -/
def jsWordChar (c : Char) : Bool := c.isAlpha || c.isDigit || c = '_'

/-- `pat` is a prefix of `text` (character lists). -/
def hasPrefixL : List Char → List Char → Bool
  | [], _ => true
  | _ :: _, [] => false
  | p :: ps, c :: cs => p = c && hasPrefixL ps cs

/-- `pat` occurs as a contiguous substring of `text`; models an
unanchored JS regex test of a literal pattern. -/
def containsL (pat : List Char) : List Char → Bool
  | [] => hasPrefixL pat []
  | c :: cs => hasPrefixL pat (c :: cs) || containsL pat cs

/-- Some literal alternative of the pattern list occurs in the text;
models `/(a|b|…)/.test(t)` for literal alternatives. -/
def containsAny (pats : List String) (text : List Char) : Bool :=
  pats.any (fun p => containsL p.toList text)

/-- Trim characters satisfying `p` from both ends of a character list. -/
def trimEndsP (p : Char → Bool) (l : List Char) : List Char :=
  ((l.dropWhile p).reverse.dropWhile p).reverse

/-- Trim whitespace from both ends (JS `String.prototype.trim`). -/
def trimL (l : List Char) : List Char := trimEndsP Char.isWhitespace l

/-- Split a character list on whitespace runs, dropping empty pieces;
models `t.split(/\s+/).filter(Boolean)`. -/
def wordsAux : List Char → List Char → List (List Char)
  | [], acc => if acc.isEmpty then [] else [acc.reverse]
  | c :: rest, acc =>
    if c.isWhitespace then
      if acc.isEmpty then wordsAux rest [] else acc.reverse :: wordsAux rest []
    else wordsAux rest (c :: acc)

/-- The whitespace-separated words of a character list. -/
def wordsOf (l : List Char) : List (List Char) := wordsAux l []

/-- Lower-case a character list (ASCII; Hebrew has no case, as in JS). -/
def lowerL (l : List Char) : List Char := l.map Char.toLower

/-- Replace whitespace runs by single spaces and trim; models
`text.replace(/\s+/g, " ").trim()`. -/
def collapseWhitespace (s : String) : String :=
  String.intercalate " " ((wordsOf s.toList).map (fun w => String.mk w))

/-- Keep the first occurrence of each element; models
`Array.from(new Set(xs))` (JS sets preserve insertion order). -/
def dedupKeepFirst : List String → List String → List String
  | _, [] => []
  | seen, x :: xs =>
    if x ∈ seen then dedupKeepFirst seen xs
    else x :: dedupKeepFirst (x :: seen) xs

/-! ### Environment defaults (src/server.js lines 79-99) -/

def MB_BARGEIN_MIN_MS : Nat := 250
def MB_BARGEIN_COOLDOWN_MS : Nat := 600
def MB_NAME_CAPTURE_EARLY_WINDOW_SEC : Nat := 30
def MB_NAME_CAPTURE_EARLY_UTTERANCES : Nat := 2
def MB_NAME_EXPECTING_TTL_MS : Nat := 12000
def MAX_QUEUE_FRAMES : Nat := 400
def infoAnswerCharsMax : Nat := 1200

/-! ### Name heuristics (src/server.js lines 340-429) -/

/-- The `NAME_REJECT_WORDS` stoplist. -/
def NAME_REJECT_WORDS : List String :=
  ["היי", "שלום", "כן", "לא", "רגע", "שנייה", "שניה", "אוקיי", "אוקי",
   "המ", "אמ", "אה", "טוב", "ביי", "להתראות", "תודה", "מה", "למה",
   "איפה", "מתי", "איך", "כמה", "מי", "בסדר", "תשמע", "תקשיבי",
   "תקשיבו", "בסדר גמור"]

/-- Hebrew letter block `֐-׿`. -/
def isHebrewBlock (c : Char) : Bool := 0x590 ≤ c.toNat && c.toNat ≤ 0x5FF

/-- Characters kept by `t.replace(/[^֐-׿a-zA-Z\s'-]/g, "")`. -/
def nameAllowedChar (c : Char) : Bool :=
  isHebrewBlock c || c.isAlpha || c.isWhitespace || c = apoChar || c = '-'

/-- `looksLikeName` (src/server.js lines 372-392). -/
def looksLikeName (text : String) : Bool :=
  let t := trimL text.toList
  if t.isEmpty then false else
  let cleaned := trimL (t.filter nameAllowedChar)
  if cleaned.isEmpty then false else
  let words := wordsOf cleaned
  if words.length > 3 then false else
  if cleaned.length > 22 then false else
  if t.any Char.isDigit then false else
  if words.any (fun w => NAME_REJECT_WORDS.any (fun r => r.toList = lowerL w)) then false else
  if words.length = 1 then
    match words with
    | w :: _ => !(hasPrefixL ['ב'] w && w.length ≥ 4)
    | [] => true
  else true

/-- The ordered alternatives of the self-introduction regex
`\b(קוראים לי|שמי|אני|מדבר|מדברת)\s+([^\n\r,.!?]{1,22})`. -/
def introAlternatives : List String := ["קוראים לי", "שמי", "אני", "מדבר", "מדברת"]

/-- Characters excluded from the capture class `[^\n\r,.!?]`. -/
def captureExcluded (c : Char) : Bool :=
  c = '\n' || c = '\r' || c = ',' || c = '.' || c = '!' || c = '?'

/-- JS `\b` boundary: exactly one of the neighbouring characters is a
word character (`prev = none` at string start). -/
def boundaryOk (prev : Option Char) (rest : List Char) : Bool :=
  let pw := match prev with | none => false | some c => jsWordChar c
  let nw := match rest with | [] => false | c :: _ => jsWordChar c
  pw != nw

/-- Attempt the self-introduction regex at one position: `\b`, then an
alternative (in order), then `\s+`, then a greedy capture of 1-22
characters outside `[\n\r,.!?]`.  (Backtracking of `\s+` into the
capture is not modelled; such matches are whitespace-only captures that
the subsequent trimming turns into `null` anyway.) -/
def tryIntroAt (prev : Option Char) (rest : List Char) : Option (String × List Char) :=
  if boundaryOk prev rest then
    match introAlternatives.find? (fun p => hasPrefixL p.toList rest) with
    | none => none
    | some p =>
      let after := rest.drop p.toList.length
      let ws := after.takeWhile Char.isWhitespace
      if ws.isEmpty then none else
      let cap := ((after.drop ws.length).takeWhile (fun c => !captureExcluded c)).take 22
      if cap.isEmpty then none else some (p, cap)
  else none

/-- Leftmost match of the self-introduction regex. -/
def scanIntro : Option Char → List Char → Option (String × List Char)
  | _, [] => none
  | prev, c :: cs =>
    match tryIntroAt prev (c :: cs) with
    | some r => some r
    | none => scanIntro (some c) cs

/-- Characters stripped from both ends of a raw captured name:
`^[\s"'“”‘’׳״\-–—.,!?]+|[\s"'“”‘’׳״\-–—.,!?]+$`. -/
def nameEdgeStrip (c : Char) : Bool :=
  c.isWhitespace || c = dqChar || c = apoChar ||
  c = Char.ofNat 0x201C || c = Char.ofNat 0x201D ||
  c = Char.ofNat 0x2018 || c = Char.ofNat 0x2019 ||
  c = Char.ofNat 0x5F3 || c = Char.ofNat 0x5F4 ||
  c = '-' || c = Char.ofNat 0x2013 || c = Char.ofNat 0x2014 ||
  c = '.' || c = ',' || c = '!' || c = '?'

/-- Quote characters removed everywhere: `/["'“”‘’׳״]/g`. -/
def nameQuoteChar (c : Char) : Bool :=
  c = dqChar || c = apoChar ||
  c = Char.ofNat 0x201C || c = Char.ofNat 0x201D ||
  c = Char.ofNat 0x2018 || c = Char.ofNat 0x2019 ||
  c = Char.ofNat 0x5F3 || c = Char.ofNat 0x5F4

/-- The verb/filler test applied to the first word after `אני`/`מדבר`/
`מדברת`: `/(רוצה|צריך|…)/.test(firstWord)` (unanchored, substring). -/
def introFirstWordRejects : List String :=
  ["רוצה", "צריך", "צריכה", "מבקש", "מבקשת", "מתקשר", "מתקשרת",
   "מחפש", "מחפשת", "מבקשים", "מבקשות", "לגבי", "על", "בקשר",
   "שאלה", "בעיה", "זה", "זאת", "התקשרתי", "פונה", "מדבר", "מדברת"]

/-- `extractNameFromSelfIntro` (src/server.js lines 394-422). -/
def extractNameFromSelfIntro (text : String) : Option String :=
  let t := trimL text.toList
  if t.isEmpty then none else
  match scanIntro none t with
  | none => none
  | some (pre, capL) =>
    let n1 := trimEndsP nameEdgeStrip capL
    let n2 := trimL (n1.filter (fun c => !nameQuoteChar c))
    if n2.isEmpty then none else
    if n2.length > 22 then none else
    let name := String.mk n2
    let prefixCheck : Bool :=
      if pre = "אני" || pre = "מדבר" || pre = "מדברת" then
        let ws := wordsOf n2
        if ws.length < 1 || ws.length > 2 then false else
        let firstWord := lowerL (ws.headD [])
        if containsAny introFirstWordRejects firstWord then false else
        if pre = "אני" && hasPrefixL ['ש'] firstWord then false else
        true
      else true
    if !prefixCheck then none else
    if looksLikeName name then some name else none

/-- `shouldAttemptEarlyNameCapture` (src/server.js lines 424-429). -/
def shouldAttemptEarlyNameCapture (capturedName : Option String)
    (now connStartedAtMs : Nat) (userUtteranceCount : Nat) : Bool :=
  if capturedName.isSome then false else
  (now - connStartedAtMs ≤ MB_NAME_CAPTURE_EARLY_WINDOW_SEC * 1000) &&
  (userUtteranceCount ≤ MB_NAME_CAPTURE_EARLY_UTTERANCES)

/-! ### Closing / callback / INFO detection (src/server.js lines 431-495) -/

/-- `isCallerWantsToEnd` (lines 432-436). -/
def isCallerWantsToEnd (stt : String) : Bool :=
  let t := trimL stt.toList
  if t.isEmpty then false else
  containsAny ["ביי", "להתראות", "סיימנו", "זהו", "תודה ביי",
               "יאללה ביי", "נדבר", "סגרנו"] t

/-- `isYes` (lines 439-442): anchored alternation on the trimmed text. -/
def isYes (text : String) : Bool :=
  let t := String.mk (trimL text.toList)
  ["כן", "כן בבקשה", "כן תודה", "בטח", "נכון", "כן כן"].any (fun p => p = t)

/-- `isNo` (lines 443-446). -/
def isNo (text : String) : Bool :=
  let t := String.mk (trimL text.toList)
  ["לא", "לא תודה", "ממש לא", "לא לא"].any (fun p => p = t)

/-- `extractILPhoneDigits` (lines 447-452): strip non-digits, accept
exactly 9 or 10 digits. -/
def extractILPhoneDigits (text : String) : Option String :=
  let digits := text.toList.filter Char.isDigit
  if digits.length = 9 || digits.length = 10 then some (String.mk digits) else none

/-- `normalizePhoneLocal` (src/server.js lines 454-467), written as the
flat chain of its early returns: inside the `972…`-with-length-≥11
block the two `return`s are tried, and on fallthrough the plain
10-digit and 9-digit returns are tried, else `null`. -/
def normalizePhoneLocal (input : String) : Option String :=
  let raw := trimL input.toList
  if raw.isEmpty then none else
  let digits := raw.filter Char.isDigit
  if digits.isEmpty then none else
  let is972 := hasPrefixL ['9', '7', '2'] digits && decide (11 ≤ digits.length)
  if is972 && decide ((digits.drop 3).length = 9) then
    some (String.mk ('0' :: digits.drop 3))
  else if is972 && decide ((digits.drop 3).length = 10) &&
          hasPrefixL ['0'] (digits.drop 3) then
    some (String.mk (digits.drop 3))
  else if decide (digits.length = 10) && hasPrefixL ['0'] digits then
    some (String.mk digits)
  else if decide (digits.length = 9) then
    some (String.mk ('0' :: digits))
  else none

/-- `isCallbackRequested` (lines 468-474). -/
def isCallbackRequested (text : String) : Bool :=
  let t := trimL text.toList
  if t.isEmpty then false else
  containsAny ["תחזרו", "תחזור", "חזרה", "שיחזרו", "טלפון חוזר",
               "תתקשרו", "שיחה חוזרת", "שיחזר אליי", "לחזור אלי",
               "לחזור אליי"] t

/-- `isInfoRequest` (lines 477-483); the `i` flag is modelled by
lower-casing the text (the alternatives are already lower case). -/
def isInfoRequest (text : String) : Bool :=
  let t := trimL text.toList
  if t.isEmpty then false else
  containsAny ["שעות", "שעות פעילות", "עד מתי", "מתי פתוח", "מתי פתוחים",
               "כתובת", "איפה אתם", "מיקום", "טלפון", "מספר טלפון",
               "איך מתקשרים", "מייל", "אימייל",
               "דוא" ++ String.singleton dqChar ++ "ל", "email"] (lowerL t)

/-- `detectInfoTopics` (src/server.js lines 485-495). -/
def detectInfoTopics (text : String) : List String :=
  let t := lowerL text.toList
  let topics :=
    (if containsAny ["שעות", "שעות פעילות", "פתוח", "פתוחים", "סגור", "סגורים"] t
     then ["WORKING_HOURS"] else []) ++
    (if containsAny ["כתובת", "איפה אתם", "מיקום"] t
     then ["BUSINESS_ADDRESS"] else []) ++
    (if containsAny ["טלפון", "מספר טלפון", "איך מתקשרים", "מספר"] t
     then ["MAIN_PHONE"] else []) ++
    (if containsAny ["מייל", "אימייל", "דוא" ++ String.singleton dqChar ++ "ל", "email"] t
     then ["BUSINESS_EMAIL"] else [])
  dedupKeepFirst [] topics

/-! ### Per-call gate state (the `wss.on("connection")` closure variables,
src/server.js lines 988-1014) -/

/-- Immutable per-call context: caller id (E.164) and connection start
time, fixed by the `start` event / connection open. -/
structure GateCtx where
  callerE164 : Option String
  connStartedAtMs : Nat
deriving Repr, DecidableEq

/-- The deterministic gate portion of the per-call closure state. -/
structure GateState where
  expectingName : Bool
  expectingMessage : Bool
  expectingCallbackConfirm : Bool
  expectingCallbackNumber : Bool
  capturedName : Option String
  userUtteranceCount : Nat
  assistantAskedNameAt : Nat
  nameCapturedFrom : Option String
  capturedMessage : Option String
  callbackRequested : Bool
  callbackToNumber : Option String
  closingForced : Bool
  infoRequested : Bool
  infoProvided : Bool
  infoRequestText : Option String
  infoTopics : List String
  infoAnswerCaptureActive : Bool
  infoAnswerText : String
  botTranscriptLineBuf : String
deriving Repr, DecidableEq

/-- The initial gate state of a fresh connection (all latches clear). -/
def initGateState : GateState where
  expectingName := false
  expectingMessage := false
  expectingCallbackConfirm := false
  expectingCallbackNumber := false
  capturedName := none
  userUtteranceCount := 0
  assistantAskedNameAt := 0
  nameCapturedFrom := none
  capturedMessage := none
  callbackRequested := false
  callbackToNumber := none
  closingForced := false
  infoRequested := false
  infoProvided := false
  infoRequestText := none
  infoTopics := []
  infoAnswerCaptureActive := false
  infoAnswerText := ""
  botTranscriptLineBuf := ""

/-- The three early-return name-capture branches of
`applyDeterministicGatesFromUserUtterance` (src/server.js lines
1542-1578); `some s'` means a name was captured and the handler
returned. -/
def nameCaptureStep (ctx : GateCtx) (now : Nat) (s : GateState)
    (text : String) : Option GateState :=
  match (if s.capturedName = none then extractNameFromSelfIntro text else none) with
  | some introName =>
    some { s with capturedName := some introName, nameCapturedFrom := some "caller_stt",
                  expectingName := false, assistantAskedNameAt := 0 }
  | none =>
    if s.expectingName ∧ s.capturedName = none ∧ looksLikeName text then
      some { s with capturedName := some text, nameCapturedFrom := some "caller_stt",
                    expectingName := false, assistantAskedNameAt := 0 }
    else if s.capturedName = none ∧
            shouldAttemptEarlyNameCapture s.capturedName now ctx.connStartedAtMs
              s.userUtteranceCount ∧
            looksLikeName text then
      some { s with capturedName := some text, nameCapturedFrom := some "caller_stt",
                    expectingName := false, assistantAskedNameAt := 0 }
    else none

/-- The closing latch (src/server.js line 1580). -/
def gatesClosingStep (s : GateState) (text : String) : GateState :=
  if isCallerWantsToEnd text then { s with closingForced := true } else s

/-- The INFO-request latch (src/server.js lines 1582-1588). -/
def gatesInfoStep (s : GateState) (text : String) : GateState :=
  if ¬ s.infoRequested ∧ isInfoRequest text then
    { s with infoRequested := true, infoRequestText := some text,
             infoTopics := detectInfoTopics text }
  else s

/-- The callback-request latch (src/server.js lines 1590-1593). -/
def gatesCallbackFlagStep (s : GateState) (text : String) : GateState :=
  if ¬ s.callbackRequested ∧ isCallbackRequested text then
    { s with callbackRequested := true }
  else s

/-- The message / callback-confirm / callback-number capture chain
(src/server.js lines 1595-1626; each branch is an early return). -/
def gatesCaptureStep (ctx : GateCtx) (s : GateState) (text : String) : GateState :=
  if s.expectingMessage ∧ s.capturedMessage = none then
    let cleaned := collapseWhitespace text
    if cleaned.length ≥ 2 then
      { s with capturedMessage := some cleaned, expectingMessage := false }
    else s
  else if s.expectingCallbackConfirm then
    if isYes text then
      { s with expectingCallbackConfirm := false,
               callbackToNumber := normalizePhoneLocal (ctx.callerE164.getD "") }
    else if isNo text then
      { s with expectingCallbackConfirm := false, expectingCallbackNumber := true }
    else s
  else if s.expectingCallbackNumber ∧ s.callbackToNumber = none then
    match extractILPhoneDigits text with
    | some digits =>
      { s with callbackToNumber := some ((normalizePhoneLocal digits).getD digits),
               expectingCallbackNumber := false }
    | none => s
  else s

/-- The closing/INFO/callback/message tail of
`applyDeterministicGatesFromUserUtterance` (src/server.js lines
1580-1626), reached when no name-capture branch returned. -/
def gatesTail (ctx : GateCtx) (s : GateState) (text : String) : GateState :=
  gatesCaptureStep ctx
    (gatesCallbackFlagStep (gatesInfoStep (gatesClosingStep s text) text) text) text

/-- `applyDeterministicGatesFromUserUtterance` (src/server.js lines
1528-1627), processing one finalized caller utterance at time `now`. -/
def applyDeterministicGatesFromUserUtterance (ctx : GateCtx) (now : Nat)
    (s0 : GateState) (u : String) : GateState :=
  let text := String.mk (trimL u.toList)
  if text.isEmpty then s0 else
  let s1 := { s0 with userUtteranceCount := s0.userUtteranceCount + 1 }
  let s2 :=
    if s1.expectingName ∧ s1.assistantAskedNameAt ≠ 0 ∧
       MB_NAME_EXPECTING_TTL_MS < now - s1.assistantAskedNameAt then
      { s1 with expectingName := false, assistantAskedNameAt := 0 }
    else s1
  match nameCaptureStep ctx now s2 text with
  | some s' => s'
  | none => gatesTail ctx s2 text

/-- The alternatives of the "assistant asks for a name" regex
`\b(מה השם|מה שמך|איך אפשר לפנות|שם בבקשה|אפשר שם|עם מי אני מדבר|עם מי אני מדברת)\b`. -/
def nameAskAlternatives : List String :=
  ["מה השם", "מה שמך", "איך אפשר לפנות", "שם בבקשה", "אפשר שם",
   "עם מי אני מדבר", "עם מי אני מדברת"]

/-- One alternative matches at this position with a JS `\b` on both
sides (ASCII word characters only, as the engine evaluates it). -/
def boundedAltAt (prev : Option Char) (rest : List Char) (alt : List Char) : Bool :=
  boundaryOk prev rest && hasPrefixL alt rest &&
  (match alt.getLast? with
   | none => true
   | some lastc =>
     (jsWordChar lastc) !=
       (match rest.drop alt.length with | [] => false | c :: _ => jsWordChar c))

/-- Scan the text for a `\b(alt|…)\b` match. -/
def scanBounded (alts : List (List Char)) : Option Char → List Char → Bool
  | _, [] => false
  | prev, c :: cs =>
    alts.any (fun a => boundedAltAt prev (c :: cs) a) || scanBounded alts (some c) cs

/-- The name-ask regex test applied to a flushed assistant line
(src/server.js lines 1900-1907 and 1924-1931). -/
def nameAskTest (line : String) : Bool :=
  scanBounded (nameAskAlternatives.map (fun a => a.toList)) none line.toList

/-- Transcript-line buffering (src/server.js line 1840). -/
def deltaBufferStep (s : GateState) (d : String) : GateState :=
  { s with botTranscriptLineBuf := s.botTranscriptLineBuf ++ d }

/-- INFO answer start/append (src/server.js lines 1849-1859). -/
def deltaInfoStep (s : GateState) (d : String) : GateState :=
  let s :=
    if s.infoRequested ∧ ¬ s.infoProvided then
      { s with infoProvided := true, infoAnswerCaptureActive := true }
    else s
  if s.infoAnswerCaptureActive ∧ s.infoAnswerText.length < infoAnswerCharsMax then
    { s with infoAnswerText := s.infoAnswerText ++ d }
  else s

/-- The "what shall I relay" prompt arming the message gate
(src/server.js lines 1861-1864). -/
def deltaMessageArmStep (s : GateState) (d : String) : GateState :=
  if containsAny ["מה הנושא", "מה תרצה שאעביר", "מה תרצו שאעביר", "מה למסור"] d.toList then
    { s with expectingMessage := true }
  else s

/-- The caller-ID callback offer arming the confirm gate
(src/server.js lines 1866-1870). -/
def deltaConfirmArmStep (s : GateState) (d : String) : GateState :=
  if containsL "נוח לחזור למספר שממנו התקשר".toList d.toList then
    { s with callbackRequested := true, expectingCallbackConfirm := true }
  else s

/-- The "what number" prompt arming the number gate
(src/server.js lines 1872-1877). -/
def deltaNumberArmStep (s : GateState) (d : String) : GateState :=
  if containsAny ["מה המספר", "מספר טלפון", "מספר לחזרה"] d.toList ∧
     s.callbackRequested ∧ s.callbackToNumber = none then
    { s with expectingCallbackNumber := true }
  else s

/-- The `response.audio_transcript.delta` handler's gate work
(src/server.js lines 1839-1878): transcript buffering, INFO answer
capture, and the assistant-prompt regexes arming the message/callback
gates, in source order. -/
def applyAssistantDelta (s : GateState) (d : String) : GateState :=
  deltaNumberArmStep
    (deltaConfirmArmStep
      (deltaMessageArmStep (deltaInfoStep (deltaBufferStep s d) d) d) d) d

/-- The `response.audio_transcript.done` handler's gate work
(src/server.js lines 1892-1911): flush the line buffer, run the
name-ask regex on the flushed line, stop INFO answer capture.  The
`response.completed` handler (lines 1913-1934) performs the same gate
work on the same buffer. -/
def applyAssistantDone (now : Nat) (s : GateState) : GateState :=
  let line := String.mk (trimL s.botTranscriptLineBuf.toList)
  let s := { s with botTranscriptLineBuf := "" }
  let s :=
    if s.capturedName = none ∧ nameAskTest line then
      { s with expectingName := true, assistantAskedNameAt := now }
    else s
  if s.infoAnswerCaptureActive then { s with infoAnswerCaptureActive := false } else s

/-- The fields of the post-call LLM lead object read by
`applyLlmEnrichmentForDecision` (`coerceLeadFields` output; fields the
enrichment never reads are omitted).  String fields are `none` or
non-empty, as `coerceLeadFields` guarantees. -/
structure ParsedLead where
  intent : String
  full_name : Option String
  phone_number : Option String
  reason : Option String
  notes : Option String
deriving Repr, DecidableEq

/-- Name enrichment (src/server.js lines 1429-1432). -/
def enrichNameStep (s : GateState) (lead : ParsedLead) : GateState :=
  if s.capturedName = none ∧ lead.full_name.isSome then
    { s with capturedName := lead.full_name }
  else s

/-- Message enrichment (src/server.js lines 1434-1441). -/
def enrichMessageStep (s : GateState) (lead : ParsedLead) : GateState :=
  if s.capturedMessage = none ∧ lead.intent = "message" ∧
     (lead.reason.isSome ∨ lead.notes.isSome) then
    { s with capturedMessage := lead.reason.orElse (fun _ => lead.notes) }
  else s

/-- Callback-number enrichment (src/server.js lines 1443-1449). -/
def enrichPhoneStep (s : GateState) (lead : ParsedLead) : GateState :=
  if s.callbackRequested ∧ s.callbackToNumber = none ∧ lead.phone_number.isSome then
    match normalizePhoneLocal (lead.phone_number.getD "") with
    | some n => { s with callbackToNumber := some n }
    | none => s
  else s

/-- Final callback-number re-normalization (src/server.js lines
1451-1453). -/
def enrichRenormalizeStep (s : GateState) : GateState :=
  match s.callbackToNumber with
  | some v => { s with callbackToNumber := some ((normalizePhoneLocal v).getD v) }
  | none => s

/-- `applyLlmEnrichmentForDecision` (src/server.js lines 1425-1454), in
source order. -/
def applyLlmEnrichmentForDecision (s : GateState)
    (parsedLeadCollection : Option ParsedLead) : GateState :=
  match parsedLeadCollection with
  | none => s
  | some lead =>
    enrichRenormalizeStep
      (enrichPhoneStep (enrichMessageStep (enrichNameStep s lead) lead) lead)

/-- The events that mutate gate state during a call. -/
inductive GateEvent where
  | user (now : Nat) (text : String)
  | asstDelta (text : String)
  | asstDone (now : Nat)
  | enrich (lead : Option ParsedLead)
deriving Repr, DecidableEq

/-- Dispatch one gate event. -/
def gateStep (ctx : GateCtx) (s : GateState) : GateEvent → GateState
  | .user now t => applyDeterministicGatesFromUserUtterance ctx now s t
  | .asstDelta d => applyAssistantDelta s d
  | .asstDone now => applyAssistantDone now s
  | .enrich lead => applyLlmEnrichmentForDecision s lead

/-- Run a sequence of gate events. -/
def gateRun (ctx : GateCtx) (s : GateState) (events : List GateEvent) : GateState :=
  events.foldl (gateStep ctx) s

/-! ### Lead decision engine (src/server.js lines 1364-1502) -/

/-- `isLeadComplete` (lines 1364-1369). -/
def isLeadComplete (s : GateState) : Bool :=
  if s.capturedName = none then false
  else if s.capturedMessage = none then false
  else if s.callbackRequested ∧ s.callbackToNumber = none then false
  else true

/-- `isPartialLead` (lines 1371-1377). -/
def isPartialLead (s : GateState) : Bool :=
  if s.capturedName = none then false
  else if s.capturedMessage = none then true
  else if s.callbackRequested ∧ s.callbackToNumber = none then true
  else false

/-- The three dispatchable disposition categories of
`decideAndSendOnEnd`; the `PARTIAL_FALLBACK` branch dispatches the
PARTIAL notification. -/
inductive LeadDecision where
  | final
  | partialLead
  | abandoned
deriving Repr, DecidableEq

/-- The category whose notification `decideAndSendOnEnd` dispatches for
a given gate state (the decision chain at src/server.js lines
1469-1484). -/
def leadDecision (s : GateState) : LeadDecision :=
  if isLeadComplete s then .final
  else if isPartialLead s then .partialLead
  else if s.capturedName = none then .abandoned
  else .partialLead

/-- Webhook configuration: which webhook URLs are non-empty, and
whether post-call LLM parsing is enabled. -/
structure WebhookCfg where
  finalUrlSet : Bool
  abandonedUrlSet : Bool
  llmEnabled : Bool
deriving Repr, DecidableEq

/-- The disposition-relevant part of a webhook payload
(`buildBasePayload`, src/server.js lines 1318-1362). -/
structure Payload where
  event_type : String
  lead_decision : String
  name : Option String
  message : Option String
  callback_requested : Bool
  callback_to_number : Option String
  info_request_text : Option String
  info_answer_text : Option String
  info_topics : Option (List String)
  notes_internal : Option String
  recording_public_url : Option String
deriving Repr, DecidableEq

/-- The end-of-call session state used by `decideAndSendOnEnd`. -/
structure SessionEndState where
  gates : GateState
  parsedLeadCollection : Option ParsedLead
  parsedLeadCollectionError : Option String
  sentFinal : Bool
  sentPartial : Bool
  sentAbandoned : Bool
  recordingResolved : Bool
  recordingPublicUrl : Option String
deriving Repr, DecidableEq

/-- The `parts` array of `buildNotesInternalForDecision`
(src/server.js lines 1289-1316). -/
def buildNotesParts (cfg : WebhookCfg) (decision : String)
    (s : SessionEndState) : List String :=
  ["decision=" ++ decision] ++
  (match s.gates.infoRequestText with
   | some t =>
     ["info_asked=" ++ String.singleton dqChar ++ String.mk (t.toList.take 220) ++
      String.singleton dqChar]
   | none => []) ++
  (if s.gates.infoTopics.isEmpty then []
   else ["info_topics=" ++ String.intercalate "," s.gates.infoTopics]) ++
  (let ans := String.mk (trimL s.gates.infoAnswerText.toList)
   if ¬ ans.isEmpty then
     ["info_answer=" ++ String.singleton dqChar ++ String.mk (ans.toList.take 420) ++
      String.singleton dqChar]
   else if s.gates.infoRequested then ["info_answer=empty"] else []) ++
  (if s.recordingPublicUrl = none ∧
      (decision = "FINAL" ∨ decision = "PARTIAL" ∨ decision = "ABANDONED") then
     ["recording_public_url=missing"]
   else []) ++
  (if cfg.llmEnabled ∧ s.parsedLeadCollection = none ∧
      s.parsedLeadCollectionError.isSome then
     ["llm_parsing_error=" ++ String.singleton dqChar ++
      String.mk ((s.parsedLeadCollectionError.getD "").toList.take 180) ++
      String.singleton dqChar]
   else [])

/-- `buildNotesInternalForDecision`: the parts joined with `" | "`. -/
def buildNotesInternalForDecision (cfg : WebhookCfg) (decision : String)
    (s : SessionEndState) : String :=
  String.intercalate " | " (buildNotesParts cfg decision s)

/-- `buildBasePayload` (src/server.js lines 1318-1362), restricted to
the modelled fields; `event_type`/`lead_decision`/`notes_internal` are
filled by the senders. -/
def buildBasePayload (s : SessionEndState) : Payload where
  event_type := ""
  lead_decision := ""
  name := s.gates.capturedName
  message := s.gates.capturedMessage
  callback_requested := s.gates.callbackRequested
  callback_to_number := s.gates.callbackToNumber
  info_request_text := s.gates.infoRequestText
  info_answer_text :=
    (let a := String.mk (trimL s.gates.infoAnswerText.toList)
     if a.isEmpty then none else some a)
  info_topics := (if s.gates.infoTopics.isEmpty then none else some s.gates.infoTopics)
  notes_internal := none
  recording_public_url := s.recordingPublicUrl

/-- `sendFinalOnce` (src/server.js lines 1390-1398): idempotency guard,
URL guard, latch, dispatch. -/
def sendFinalOnce (cfg : WebhookCfg) (s : SessionEndState) :
    SessionEndState × Option Payload :=
  if s.sentFinal then (s, none)
  else if ¬ cfg.finalUrlSet then (s, none)
  else
    let s' := { s with sentFinal := true }
    (s', some { buildBasePayload s' with
                  event_type := "FINAL", lead_decision := "FINAL",
                  notes_internal := some (buildNotesInternalForDecision cfg "FINAL" s') })

/-- `sendPartialOnce` (lines 1400-1408); PARTIAL shares the FINAL
webhook URL. -/
def sendPartialOnce (cfg : WebhookCfg) (s : SessionEndState) :
    SessionEndState × Option Payload :=
  if s.sentPartial then (s, none)
  else if ¬ cfg.finalUrlSet then (s, none)
  else
    let s' := { s with sentPartial := true }
    (s', some { buildBasePayload s' with
                  event_type := "PARTIAL", lead_decision := "PARTIAL",
                  notes_internal := some (buildNotesInternalForDecision cfg "PARTIAL" s') })

/-- `sendAbandonedOnce` (lines 1410-1423). -/
def sendAbandonedOnce (cfg : WebhookCfg) (s : SessionEndState) :
    SessionEndState × Option Payload :=
  if s.sentAbandoned then (s, none)
  else if ¬ cfg.abandonedUrlSet then (s, none)
  else
    let s' := { s with sentAbandoned := true }
    (s', some { buildBasePayload s' with
                  event_type := "ABANDONED", lead_decision := "ABANDONED",
                  notes_internal := some (buildNotesInternalForDecision cfg "ABANDONED" s') })

/-- `ensureRecordingResolved` (src/server.js lines 1250-1287).  The
network side (v2 callback wait plus legacy retries) is abstracted by
`outcome`: `some url` when a recording reference was resolved within
the bounded window, `none` when it was not (timeout, missing
credentials, or no recording).  The `recordingResolved` latch is set
unconditionally on first entry, exactly as in the source. -/
def ensureRecordingResolved (s : SessionEndState) (outcome : Option String) :
    SessionEndState :=
  if s.recordingResolved then s
  else
    match outcome with
    | some url => { s with recordingResolved := true, recordingPublicUrl := some url }
    | none => { s with recordingResolved := true }

/-- The decision chain of `decideAndSendOnEnd` (src/server.js lines
1469-1484): first match wins, and the name-only fallback dispatches
PARTIAL. -/
def decideDispatch (cfg : WebhookCfg) (s : SessionEndState) :
    SessionEndState × Option Payload :=
  if isLeadComplete s.gates then sendFinalOnce cfg s
  else if isPartialLead s.gates then sendPartialOnce cfg s
  else if s.gates.capturedName = none then sendAbandonedOnce cfg s
  else sendPartialOnce cfg s

/-- The optional LLM-enrichment step of `decideAndSendOnEnd`
(src/server.js lines 1461-1464). -/
def decideEnrich (cfg : WebhookCfg) (s : SessionEndState) : SessionEndState :=
  if cfg.llmEnabled then
    { s with gates := applyLlmEnrichmentForDecision s.gates s.parsedLeadCollection }
  else s

/-- `decideAndSendOnEnd` (src/server.js lines 1456-1502): the single
decision point — idempotency guard, optional LLM enrichment, bounded
recording resolution, then the decision chain.  Returns the new state
and the dispatched notification payload, if any. -/
def decideAndSendOnEnd (cfg : WebhookCfg) (recordingOutcome : Option String)
    (s : SessionEndState) : SessionEndState × Option Payload :=
  if s.sentFinal ∨ s.sentPartial ∨ s.sentAbandoned then (s, none) else
  decideDispatch cfg (ensureRecordingResolved (decideEnrich cfg s) recordingOutcome)

/-- End-of-call events: a termination trigger invoking the decision
(closing-forced, transport stop, or transport close — all three call
`decideAndSendOnEnd`), or a mutation of the gate / parsed-lead state
between triggers. -/
inductive EndEvent where
  | decide (recordingOutcome : Option String)
  | setGates (g : GateState)
  | setParsed (p : Option ParsedLead) (e : Option String)

/-- Dispatch one end-of-call event, collecting dispatched payloads. -/
def endStep (cfg : WebhookCfg) (s : SessionEndState) :
    EndEvent → SessionEndState × List Payload
  | .decide rec =>
    let r := decideAndSendOnEnd cfg rec s
    (r.1, r.2.toList)
  | .setGates g => ({ s with gates := g }, [])
  | .setParsed p e =>
    ({ s with parsedLeadCollection := p, parsedLeadCollectionError := e }, [])

/-- Run a sequence of end-of-call events, concatenating dispatches. -/
def endRun (cfg : WebhookCfg) : SessionEndState → List EndEvent →
    SessionEndState × List Payload
  | s, [] => (s, [])
  | s, e :: es =>
    let r := endStep cfg s e
    let r' := endRun cfg r.1 es
    (r'.1, r.2 ++ r'.2)

/-! ### Turn orchestrator (src/server.js lines 1060-1082, 1639-1775,
1936-1944) -/

/-- The turn-request constants of `maybeCreateResponse`. -/
def DEBOUNCE_MS : Nat := 350
def MIN_FRAMES : Nat := 4

/-- The turn-orchestration portion of the per-call closure state. -/
structure TurnState where
  wsOpen : Bool
  openaiReady : Bool
  sessionConfigured : Bool
  pendingCreate : Bool
  responseInFlight : Bool
  lastResponseCreateAt : Nat
  userFramesSinceLastCreate : Nat
  assistantSpeaking : Bool
  callEnding : Bool
  callEnded : Bool
  closingResponsePending : Bool
deriving Repr, DecidableEq

/-- `maybeCreateResponse` (src/server.js lines 1060-1082): returns the
new state and whether a `response.create` was sent. -/
def maybeCreateResponse (now : Nat) (s : TurnState) : TurnState × Bool :=
  if s.responseInFlight ∨ s.callEnding ∨ s.callEnded then (s, false)
  else if ¬ (s.wsOpen ∧ s.openaiReady ∧ s.sessionConfigured) then
    ({ s with pendingCreate := true }, false)
  else if now - s.lastResponseCreateAt < DEBOUNCE_MS then (s, false)
  else if s.userFramesSinceLastCreate < MIN_FRAMES then (s, false)
  else
    ({ s with lastResponseCreateAt := now, userFramesSinceLastCreate := 0,
              pendingCreate := false, responseInFlight := true,
              assistantSpeaking := true }, true)

/-- The turn-state work of the `response.audio.done` /
`response.completed` handler (src/server.js lines 1936-1944): clear the
in-flight and speaking flags; when the closing utterance was pending,
finalize the call.  It neither reads `pendingCreate` nor calls
`maybeCreateResponse`. -/
def responseCompletedStep (s : TurnState) : TurnState :=
  let s := { s with responseInFlight := false, assistantSpeaking := false }
  if s.closingResponsePending then
    { s with closingResponsePending := false, callEnded := true }
  else s

/-- The turn-state portion of the `openaiWs.on("open")` handler
(src/server.js lines 1639-1775): mark readiness, configure the session,
send the opening `response.create` (which sets `responseInFlight`), and
re-attempt a latched pending create.  Returns the new state and the
number of `response.create` messages sent. -/
def openaiOpenHandler (now : Nat) (s : TurnState) : TurnState × Nat :=
  let s := { s with wsOpen := true, openaiReady := true }
  if s.callEnding ∨ s.callEnded then ({ s with wsOpen := false }, 0)
  else
    let s := { s with sessionConfigured := true }
    let s := { s with responseInFlight := true, assistantSpeaking := true }
    if s.pendingCreate then
      let r := maybeCreateResponse now s
      (r.1, 1 + (if r.2 then 1 else 0))
    else (s, 1)

/-! ### Barge-in machine (src/server.js lines 1137-1179) -/

/-- The noise-handling configuration knobs (env defaults:
`MB_HALF_DUPLEX=false`, `MB_BARGEIN_ENABLED=false`,
`MB_BARGEIN_MIN_MS=250`, `MB_BARGEIN_COOLDOWN_MS=600`). -/
structure BargeCfg where
  halfDuplex : Bool
  bargeinEnabled : Bool
  minMs : Nat
  cooldownMs : Nat
deriving Repr, DecidableEq

/-- The barge-in portion of the per-call closure state; `bargeinTimer`
holds the absolute fire time of the pending one-shot timer. -/
structure BargeState where
  speechActive : Bool
  lastBargeinAt : Nat
  bargeinTimer : Option Nat
  responseInFlight : Bool
deriving Repr, DecidableEq

/-- Initial barge-in state (src/server.js lines 967-969). -/
def initBargeState : BargeState where
  speechActive := false
  lastBargeinAt := 0
  bargeinTimer := none
  responseInFlight := false

/-- `onSpeechStarted` (src/server.js lines 1149-1171) at time `t`:
half-duplex and disabled modes never arm; otherwise the pending timer
is replaced by a one-shot firing at `t + minMs` (the source's
`setTimeout(…, Math.max(0, MB_BARGEIN_MIN_MS))`). -/
def onSpeechStarted (cfg : BargeCfg) (t : Nat) (s : BargeState) : BargeState :=
  let s := { s with speechActive := true }
  if cfg.halfDuplex then s
  else if ¬ cfg.bargeinEnabled then s
  else if ¬ s.responseInFlight then s
  else if t - s.lastBargeinAt < cfg.cooldownMs then s
  else { s with bargeinTimer := some (t + cfg.minMs) }

/-- `onSpeechStopped` (src/server.js lines 1173-1179): clear the speech
flag and the pending one-shot timer. -/
def onSpeechStopped (s : BargeState) : BargeState :=
  { s with speechActive := false, bargeinTimer := none }

/-- The one-shot timer callback (the closure inside `onSpeechStarted`,
src/server.js lines 1162-1170) firing at time `t`; a cleared or
replaced timer never fires, so a `t` not matching the pending deadline
is a no-op.  Returns whether `cancelAssistant` was invoked (the
`response.cancel` of a barge-in). -/
def onBargeinTimerFire (cfg : BargeCfg) (t : Nat) (s : BargeState) :
    BargeState × Bool :=
  if s.bargeinTimer = some t then
    let s := { s with bargeinTimer := none }
    if ¬ s.speechActive then (s, false)
    else if ¬ s.responseInFlight then (s, false)
    else if t - s.lastBargeinAt < cfg.cooldownMs then (s, false)
    else ({ s with lastBargeinAt := t }, true)
  else (s, false)

/-- Timed events of the barge-in machine.  `respStart`/`respDone` model
the in-flight flag being set by a turn request and cleared by turn
completion. -/
inductive BargeEvent where
  | speechStart (t : Nat)
  | speechStop (t : Nat)
  | timerFire (t : Nat)
  | respStart (t : Nat)
  | respDone (t : Nat)
deriving Repr, DecidableEq

/-- Dispatch one barge-in event; the second component lists the times
of barge-in cancellations this event produced. -/
def bargeStep (cfg : BargeCfg) (s : BargeState) : BargeEvent → BargeState × List Nat
  | .speechStart t => (onSpeechStarted cfg t s, [])
  | .speechStop _ => (onSpeechStopped s, [])
  | .timerFire t =>
    let r := onBargeinTimerFire cfg t s
    (r.1, if r.2 then [t] else [])
  | .respStart _ => ({ s with responseInFlight := true }, [])
  | .respDone _ => ({ s with responseInFlight := false }, [])

/-- Run a list of barge-in events, collecting cancellation times. -/
def bargeRun (cfg : BargeCfg) : BargeState → List BargeEvent → BargeState × List Nat
  | s, [] => (s, [])
  | s, e :: es =>
    let r := bargeStep cfg s e
    let r' := bargeRun cfg r.1 es
    (r'.1, r.2 ++ r'.2)

/-- The timestamp of a barge-in event. -/
def eventTime : BargeEvent → Nat
  | .speechStart t => t
  | .speechStop t => t
  | .timerFire t => t
  | .respStart t => t
  | .respDone t => t

/-- Event times are nondecreasing (wall-clock order). -/
def chrono (events : List BargeEvent) : Prop :=
  List.Pairwise (fun a b => eventTime a ≤ eventTime b) events

/-- Whether an event is a caller speech-stop. -/
def isStopEvent : BargeEvent → Bool
  | .speechStop _ => true
  | _ => false

/-- No speech-stop occurs in the list. -/
def noStop (l : List BargeEvent) : Bool := l.all (fun e => !isStopEvent e)

/-! ### Audio frame queue (src/server.js lines 973-974, 1048-1058,
2018-2039) -/

/-- Noise-mode configuration of the media handler. -/
structure MediaCfg where
  halfDuplex : Bool
deriving Repr, DecidableEq

/-- The inbound-audio portion of the per-call closure state.  Frames
are identified by their arrival sequence numbers; `forwarded` records
the `input_audio_buffer.append` messages sent, in order. -/
structure MediaState where
  wsOpen : Bool
  openaiReady : Bool
  sessionConfigured : Bool
  callEnding : Bool
  callEnded : Bool
  assistantSpeaking : Bool
  audioQueue : List Nat
  forwarded : List Nat
  userFramesSinceLastCreate : Nat
deriving Repr, DecidableEq

/-- Initial media state of a fresh connection. -/
def initMediaState : MediaState where
  wsOpen := false
  openaiReady := false
  sessionConfigured := false
  callEnding := false
  callEnded := false
  assistantSpeaking := false
  audioQueue := []
  forwarded := []
  userFramesSinceLastCreate := 0

/-- `flushAudioQueue` (src/server.js lines 1048-1058): drain the queue
in FIFO order into `input_audio_buffer.append` sends, counting frames. -/
def flushAudioQueue (s : MediaState) : MediaState :=
  if ¬ s.wsOpen then s
  else if s.callEnding ∨ s.callEnded then s
  else if ¬ (s.openaiReady ∧ s.sessionConfigured) then s
  else
    { s with forwarded := s.forwarded ++ s.audioQueue,
             userFramesSinceLastCreate :=
               s.userFramesSinceLastCreate + s.audioQueue.length,
             audioQueue := [] }

/-- The `media` branch of the `twilioWs.on("message")` handler
(src/server.js lines 2018-2039) for a frame with a non-empty payload:
drop while ending, drop in half-duplex while the assistant speaks,
queue (with oldest-first overflow trimming via
`splice(0, length - MAX_QUEUE_FRAMES)`) while the AI link is not ready,
otherwise forward directly. -/
def mediaHandler (cfg : MediaCfg) (s : MediaState) (payload : Nat) : MediaState :=
  if s.callEnding ∨ s.callEnded then s
  else if cfg.halfDuplex ∧ s.assistantSpeaking then s
  else if ¬ (s.wsOpen ∧ s.openaiReady ∧ s.sessionConfigured) then
    let q := s.audioQueue ++ [payload]
    let q := if MAX_QUEUE_FRAMES < q.length then q.drop (q.length - MAX_QUEUE_FRAMES) else q
    { s with audioQueue := q }
  else
    { s with userFramesSinceLastCreate := s.userFramesSinceLastCreate + 1,
             forwarded := s.forwarded ++ [payload] }

/-- Events of the media machine: a caller audio frame, the AI socket
opening (which configures the session, sends the opening utterance and
flushes the queue), assistant-speaking toggles, and call-ending
triggers. -/
inductive MediaEvent where
  | media (payload : Nat)
  | aiOpen
  | speaking (b : Bool)
  | stop
deriving Repr, DecidableEq

/-- Dispatch one media event. -/
def mediaStep (cfg : MediaCfg) (s : MediaState) : MediaEvent → MediaState
  | .media p => mediaHandler cfg s p
  | .aiOpen =>
    let s := { s with wsOpen := true, openaiReady := true }
    if s.callEnding ∨ s.callEnded then { s with wsOpen := false }
    else
      let s := { s with sessionConfigured := true, assistantSpeaking := true }
      flushAudioQueue s
  | .speaking b => { s with assistantSpeaking := b }
  | .stop => { s with callEnding := true }

/-- Run a list of media events. -/
def mediaRun (cfg : MediaCfg) : MediaState → List MediaEvent → MediaState
  | s, [] => s
  | s, e :: es => mediaRun cfg (mediaStep cfg s e) es

/-- The caller frames arriving in an event list, in arrival order. -/
def mediaArrivals : List MediaEvent → List Nat
  | [] => []
  | .media p :: es => p :: mediaArrivals es
  | _ :: es => mediaArrivals es

/-! ## Theorems -/

/-- C1: for every terminal gate state the dispatched category follows the
first-match order of `decideAndSendOnEnd`: FINAL iff a name and a message
are captured and (callback was not requested or a number is captured);
ABANDONED iff no name was captured; PARTIAL in every remaining case —
in particular the name-set-nothing-else fallback resolves to PARTIAL and
the decision function is total (never "no decision"). -/
theorem C1_decision_order (s : GateState) :
    (leadDecision s = LeadDecision.final ↔
      (s.capturedName ≠ none ∧ s.capturedMessage ≠ none ∧
       (s.callbackRequested = false ∨ s.callbackToNumber ≠ none))) ∧
    (leadDecision s = LeadDecision.abandoned ↔ s.capturedName = none) ∧
    (leadDecision s = LeadDecision.partialLead ↔
      (s.capturedName ≠ none ∧
       (s.capturedMessage = none ∨
        (s.callbackRequested = true ∧ s.callbackToNumber = none)))) := by
  unfold leadDecision isLeadComplete isPartialLead
  rcases hn : s.capturedName with _ | n <;>
    rcases hm : s.capturedMessage with _ | m <;>
      rcases hc : s.callbackRequested with _ | _ <;>
        rcases hb : s.callbackToNumber with _ | b <;>
          simp [hn, hm, hc, hb]

/-- Helper: filtering by `Char.isDigit` yields only digit characters. -/
theorem all_isDigit_filter (l : List Char) :
    (l.filter Char.isDigit).all Char.isDigit = true := by
  rw [List.all_eq_true]
  intro a ha
  exact (List.mem_filter.mp ha).2

/-- Helper: a singleton prefix determines the head. -/
theorem hasPrefixL_head (c : Char) (l : List Char)
    (h : hasPrefixL [c] l = true) : l.head? = some c := by
  cases l with
  | nil => simp [hasPrefixL] at h
  | cons x xs =>
    simp [hasPrefixL] at h
    simp [h]

/-- C10: `normalizePhoneLocal` returns `none` or a string of exactly 10
decimal digits whose first character is `0` (covering the
972-international, 10-digit local and 9-digit local shapes); no other
length or prefix is ever returned. -/
theorem C10_normalizePhoneLocal_shape (input s : String)
    (h : normalizePhoneLocal input = some s) :
    s.length = 10 ∧ s.toList.head? = some '0' ∧ s.toList.all Char.isDigit = true := by
  have hall : ((trimL input.toList).filter Char.isDigit).all Char.isDigit = true :=
    all_isDigit_filter _
  have hdrop : ∀ c ∈ ((trimL input.toList).filter Char.isDigit).drop 3,
      Char.isDigit c = true := by
    intro c hc
    exact List.all_eq_true.mp hall c (List.mem_of_mem_drop hc)
  simp only [normalizePhoneLocal] at h
  split at h
  · exact absurd h (by simp)
  · split at h
    · exact absurd h (by simp)
    · split at h
      case _ hcond =>
        cases h
        have h9 : (((trimL input.toList).filter Char.isDigit).drop 3).length = 9 := by
          have := ((Bool.and_eq_true _ _).mp hcond).2
          simpa using this
        refine ⟨?_, by simp, ?_⟩
        · show ('0' :: ((trimL input.toList).filter Char.isDigit).drop 3).length = 10
          rw [List.length_cons, h9]
        simp only [String.toList, List.all_eq_true]
        intro c hc
        rcases List.mem_cons.mp hc with hc0 | hcd
        · subst hc0; rfl
        · exact hdrop c hcd
      case _ =>
        split at h
        case _ hcond =>
          cases h
          have hparts := (Bool.and_eq_true _ _).mp hcond
          have h10 : (((trimL input.toList).filter Char.isDigit).drop 3).length = 10 := by
            have := ((Bool.and_eq_true _ _).mp hparts.1).2
            simpa using this
          refine ⟨h10, hasPrefixL_head _ _ hparts.2, ?_⟩
          simp only [String.toList, List.all_eq_true]
          intro c hc
          exact hdrop c hc
        case _ =>
          split at h
          case _ hcond =>
            cases h
            have hparts := (Bool.and_eq_true _ _).mp hcond
            have h10 : ((trimL input.toList).filter Char.isDigit).length = 10 := by
              simpa using hparts.1
            refine ⟨h10, hasPrefixL_head _ _ hparts.2, ?_⟩
            simp only [String.toList, List.all_eq_true]
            intro c hc
            exact List.all_eq_true.mp hall c hc
          case _ =>
            split at h
            case _ hcond =>
              cases h
              have h9 : ((trimL input.toList).filter Char.isDigit).length = 9 := by
                simpa using hcond
              refine ⟨?_, by simp, ?_⟩
              · show ('0' :: (trimL input.toList).filter Char.isDigit).length = 10
                rw [List.length_cons, h9]
              simp only [String.toList, List.all_eq_true]
              intro c hc
              rcases List.mem_cons.mp hc with hc0 | hcd
              · subst hc0; rfl
              · exact List.all_eq_true.mp hall c hcd
            case _ => exact absurd h (by simp)

/-- Witness for C10 at a concrete 9-digit local input. -/
theorem C10_normalizePhoneLocal_shape_witness :
    normalizePhoneLocal "501234567" = some "0501234567" ∧
    ("0501234567".length = 10 ∧ "0501234567".toList.head? = some '0' ∧
     "0501234567".toList.all Char.isDigit = true) :=
  ⟨by decide, C10_normalizePhoneLocal_shape "501234567" "0501234567" (by decide)⟩

/-! ### C3: the info-only, no-name call (Scenario D) -/

/-- Context of the C3 scenario call. -/
def c3ctx : GateCtx := { callerE164 := some "+972501111111", connStartedAtMs := 0 }

/-- The C3 scenario: the caller asks only for opening hours, the
assistant answers, no name is ever given. -/
def c3events : List GateEvent :=
  [GateEvent.user 5000 "מה שעות הפעילות שלכם?",
   GateEvent.asstDelta "אנחנו פתוחים בין שמונה לחמש",
   GateEvent.asstDone 7000]

/-- Gate state at the end of the C3 scenario. -/
def c3gates : GateState := gateRun c3ctx initGateState c3events

/-- End-of-call session state of the C3 scenario (webhooks configured,
LLM parsing disabled). -/
def c3state : SessionEndState where
  gates := c3gates
  parsedLeadCollection := none
  parsedLeadCollectionError := none
  sentFinal := false
  sentPartial := false
  sentAbandoned := false
  recordingResolved := false
  recordingPublicUrl := none

/-- Webhook configuration of the C3 scenario. -/
def c3cfg : WebhookCfg := { finalUrlSet := true, abandonedUrlSet := true, llmEnabled := false }

set_option maxRecDepth 100000 in
/-- C3 counterexample: in the info-only call with no captured name the
engine dispatches the ABANDONED notification — there is no INFO
disposition category in `decideAndSendOnEnd` (its categories are FINAL,
PARTIAL and ABANDONED only), so the claimed INFO dispatch is false even
though the info gates latched. -/
theorem C3_counterexample :
    (((decideAndSendOnEnd c3cfg none c3state).2).map Payload.event_type
       = some "ABANDONED") ∧
    leadDecision c3gates = LeadDecision.abandoned ∧
    c3gates.infoRequested = true ∧ c3gates.infoProvided = true ∧
    c3gates.capturedName = none ∧
    "ABANDONED" ≠ "INFO" :=
  ⟨by decide, by decide, by decide, by decide, by decide, by decide⟩

set_option maxRecDepth 100000 in
/-- C3 amended: the info-only no-name call dispatches category
ABANDONED, with the INFO data carried as payload enrichment —
`info_topics` contains the working-hours tag, and the request and
answer texts are populated. -/
theorem C3_amended_info_enrichment :
    ∃ p : Payload, (decideAndSendOnEnd c3cfg none c3state).2 = some p ∧
      p.event_type = "ABANDONED" ∧
      p.info_topics = some ["WORKING_HOURS"] ∧
      p.info_request_text = some "מה שעות הפעילות שלכם?" ∧
      p.info_answer_text = some "אנחנו פתוחים בין שמונה לחמש" :=
  ⟨((decideAndSendOnEnd c3cfg none c3state).2).get (by decide),
   by decide, by decide, by decide, by decide, by decide⟩

/-! ### C6: write-once capture fields -/

/-- Context of the C6 counterexample call. -/
def c6ctx : GateCtx := { callerE164 := some "+972521111111", connStartedAtMs := 0 }

/-- The C6 counterexample sequence: the caller requests a callback, the
assistant asks for a number and the caller provides one; afterwards the
assistant offers to call back on the caller-ID number and the caller
answers "yes". -/
def c6events : List GateEvent :=
  [GateEvent.user 60000 "תחזרו אליי בבקשה",
   GateEvent.asstDelta "מה המספר לחזרה?",
   GateEvent.user 61000 "0501234567",
   GateEvent.asstDelta "נוח לחזור למספר שממנו התקשרת?",
   GateEvent.user 62000 "כן"]

set_option maxRecDepth 100000 in
/-- C6 counterexample: the captured callback number is not write-once.
After the third event it holds `0501234567`; the later "yes" to the
caller-ID confirmation overwrites it with the normalized caller address
`0521111111` (the `expectingCallbackConfirm`/`isYes` branch assigns
without checking that the field is already set). -/
theorem C6_counterexample :
    (gateRun c6ctx initGateState (c6events.take 3)).callbackToNumber
      = some "0501234567" ∧
    (gateRun c6ctx initGateState c6events).callbackToNumber
      = some "0521111111" ∧
    ("0501234567" : String) ≠ "0521111111" :=
  ⟨by decide, by decide, by decide⟩

/-! ### C2: the idempotency latch of the decision point -/

/-- Some disposition notification has been latched as sent. -/
def sentAny (s : SessionEndState) : Bool :=
  s.sentFinal || s.sentPartial || s.sentAbandoned

/-- Helper: `ensureRecordingResolved` changes neither the sent flags nor
the gates. -/
theorem ensureRecordingResolved_preserves (s : SessionEndState) (o : Option String) :
    (ensureRecordingResolved s o).sentFinal = s.sentFinal ∧
    (ensureRecordingResolved s o).sentPartial = s.sentPartial ∧
    (ensureRecordingResolved s o).sentAbandoned = s.sentAbandoned ∧
    (ensureRecordingResolved s o).gates = s.gates ∧
    (ensureRecordingResolved s o).parsedLeadCollection = s.parsedLeadCollection ∧
    (ensureRecordingResolved s o).parsedLeadCollectionError = s.parsedLeadCollectionError := by
  unfold ensureRecordingResolved
  split
  · exact ⟨rfl, rfl, rfl, rfl, rfl, rfl⟩
  · split <;> exact ⟨rfl, rfl, rfl, rfl, rfl, rfl⟩

/-- Helper: `sendFinalOnce` either dispatches nothing and leaves the
state unchanged, or latches `sentFinal`. -/
theorem sendFinalOnce_spec (cfg : WebhookCfg) (s : SessionEndState) :
    ((sendFinalOnce cfg s).2 = none → (sendFinalOnce cfg s).1 = s) ∧
    (∀ p, (sendFinalOnce cfg s).2 = some p → (sendFinalOnce cfg s).1.sentFinal = true) := by
  unfold sendFinalOnce
  split
  · exact ⟨fun _ => rfl, fun p hp => by simp at hp⟩
  · split
    · exact ⟨fun _ => rfl, fun p hp => by simp at hp⟩
    · exact ⟨fun hn => by simp at hn, fun p _ => rfl⟩

/-- Helper: `sendPartialOnce` either dispatches nothing and leaves the
state unchanged, or latches `sentPartial`. -/
theorem sendPartialOnce_spec (cfg : WebhookCfg) (s : SessionEndState) :
    ((sendPartialOnce cfg s).2 = none → (sendPartialOnce cfg s).1 = s) ∧
    (∀ p, (sendPartialOnce cfg s).2 = some p → (sendPartialOnce cfg s).1.sentPartial = true) := by
  unfold sendPartialOnce
  split
  · exact ⟨fun _ => rfl, fun p hp => by simp at hp⟩
  · split
    · exact ⟨fun _ => rfl, fun p hp => by simp at hp⟩
    · exact ⟨fun hn => by simp at hn, fun p _ => rfl⟩

/-- Helper: `sendAbandonedOnce` either dispatches nothing and leaves
the state unchanged, or latches `sentAbandoned`. -/
theorem sendAbandonedOnce_spec (cfg : WebhookCfg) (s : SessionEndState) :
    ((sendAbandonedOnce cfg s).2 = none → (sendAbandonedOnce cfg s).1 = s) ∧
    (∀ p, (sendAbandonedOnce cfg s).2 = some p →
       (sendAbandonedOnce cfg s).1.sentAbandoned = true) := by
  unfold sendAbandonedOnce
  split
  · exact ⟨fun _ => rfl, fun p hp => by simp at hp⟩
  · split
    · exact ⟨fun _ => rfl, fun p hp => by simp at hp⟩
    · exact ⟨fun hn => by simp at hn, fun p _ => rfl⟩

/-- Helper: once a notification is latched, the decision point is a
strict no-op. -/
theorem decideAndSendOnEnd_noop (cfg : WebhookCfg) (rec : Option String)
    (s : SessionEndState)
    (h : s.sentFinal = true ∨ s.sentPartial = true ∨ s.sentAbandoned = true) :
    decideAndSendOnEnd cfg rec s = (s, none) := by
  unfold decideAndSendOnEnd
  rw [if_pos h]

/-- Helper: a dispatching decision latches a flag, and a silent
decision does not change `sentAny`. -/
theorem decideDispatch_spec (cfg : WebhookCfg) (s : SessionEndState) :
    (∀ p, (decideDispatch cfg s).2 = some p →
        sentAny (decideDispatch cfg s).1 = true) ∧
    ((decideDispatch cfg s).2 = none → (decideDispatch cfg s).1 = s) := by
  unfold decideDispatch
  split
  · exact ⟨fun p hp => by
      have := (sendFinalOnce_spec cfg s).2 p hp
      simp [sentAny, this], (sendFinalOnce_spec cfg s).1⟩
  · split
    · exact ⟨fun p hp => by
        have := (sendPartialOnce_spec cfg s).2 p hp
        simp [sentAny, this], (sendPartialOnce_spec cfg s).1⟩
    · split
      · exact ⟨fun p hp => by
          have := (sendAbandonedOnce_spec cfg s).2 p hp
          simp [sentAny, this], (sendAbandonedOnce_spec cfg s).1⟩
      · exact ⟨fun p hp => by
          have := (sendPartialOnce_spec cfg s).2 p hp
          simp [sentAny, this], (sendPartialOnce_spec cfg s).1⟩

/-- Helper: `decideEnrich` changes only the gates. -/
theorem decideEnrich_preserves (cfg : WebhookCfg) (s : SessionEndState) :
    (decideEnrich cfg s).sentFinal = s.sentFinal ∧
    (decideEnrich cfg s).sentPartial = s.sentPartial ∧
    (decideEnrich cfg s).sentAbandoned = s.sentAbandoned ∧
    (decideEnrich cfg s).recordingPublicUrl = s.recordingPublicUrl ∧
    (decideEnrich cfg s).recordingResolved = s.recordingResolved := by
  unfold decideEnrich
  split <;> exact ⟨rfl, rfl, rfl, rfl, rfl⟩

/-- Helper: a dispatching decision latches a flag, and a silent
decision does not change `sentAny`. -/
theorem decideAndSendOnEnd_spec (cfg : WebhookCfg) (rec : Option String)
    (s : SessionEndState) :
    (∀ p, (decideAndSendOnEnd cfg rec s).2 = some p →
        sentAny (decideAndSendOnEnd cfg rec s).1 = true) ∧
    ((decideAndSendOnEnd cfg rec s).2 = none →
        sentAny (decideAndSendOnEnd cfg rec s).1 = sentAny s) := by
  unfold decideAndSendOnEnd
  split
  case _ => exact ⟨fun p hp => by simp at hp, fun _ => rfl⟩
  case _ hguard =>
    have h1 := decideEnrich_preserves cfg s
    have h2 := ensureRecordingResolved_preserves (decideEnrich cfg s) rec
    have hsent : sentAny (ensureRecordingResolved (decideEnrich cfg s) rec) = sentAny s := by
      unfold sentAny
      rw [h2.1, h2.2.1, h2.2.2.1, h1.1, h1.2.1, h1.2.2.1]
    constructor
    · intro p hp
      exact (decideDispatch_spec cfg _).1 p hp
    · intro hn
      rw [(decideDispatch_spec cfg _).2 hn]
      exact hsent

/-- Helper: `endStep` never clears a latched flag. -/
theorem endStep_preserves_sent (cfg : WebhookCfg) (s : SessionEndState) (e : EndEvent)
    (h : sentAny s = true) : sentAny (endStep cfg s e).1 = true := by
  cases e with
  | decide rec =>
    have hor : s.sentFinal = true ∨ s.sentPartial = true ∨ s.sentAbandoned = true := by
      unfold sentAny at h
      rcases Bool.or_eq_true_iff.mp h with h' | h'
      · rcases Bool.or_eq_true_iff.mp h' with h'' | h''
        · exact Or.inl h''
        · exact Or.inr (Or.inl h'')
      · exact Or.inr (Or.inr h')
    simp [endStep, decideAndSendOnEnd_noop cfg rec s hor, h]
  | setGates g => simpa [endStep, sentAny] using h
  | setParsed p e' => simpa [endStep, sentAny] using h

/-- Helper: once a notification is latched, the remaining run dispatches
nothing. -/
theorem endRun_silent_of_sent (cfg : WebhookCfg) :
    ∀ (events : List EndEvent) (s : SessionEndState), sentAny s = true →
      (endRun cfg s events).2 = [] := by
  intro events
  induction events with
  | nil => intro s _; rfl
  | cons e es ih =>
    intro s hs
    have hor : s.sentFinal = true ∨ s.sentPartial = true ∨ s.sentAbandoned = true := by
      unfold sentAny at hs
      rcases Bool.or_eq_true_iff.mp hs with h' | h'
      · rcases Bool.or_eq_true_iff.mp h' with h'' | h''
        · exact Or.inl h''
        · exact Or.inr (Or.inl h'')
      · exact Or.inr (Or.inr h')
    cases e with
    | decide rec =>
      simp [endRun, endStep, decideAndSendOnEnd_noop cfg rec s hor]
      exact ih s hs
    | setGates g =>
      simp [endRun, endStep]
      exact ih _ (by simpa [sentAny] using hs)
    | setParsed p e' =>
      simp [endRun, endStep]
      exact ih _ (by simpa [sentAny] using hs)

/-- C2: exactly-once dispatch.  From an unlatched session state, any
interleaving of termination triggers (each invoking the decision point,
with arbitrary recording outcomes) and state mutations dispatches at
most one disposition notification in total; and once any notification
has been latched, every later invocation of `decideAndSendOnEnd` —
whether triggered by closing-forced, transport stop, or transport close
— is a strict no-op returning the state unchanged and dispatching
nothing. -/
theorem C2_exactly_once_dispatch (cfg : WebhookCfg) (s : SessionEndState)
    (events : List EndEvent) (h : sentAny s = false) :
    ((endRun cfg s events).2).length ≤ 1 ∧
    (∀ (s' : SessionEndState) (rec : Option String),
       s'.sentFinal = true ∨ s'.sentPartial = true ∨ s'.sentAbandoned = true →
       decideAndSendOnEnd cfg rec s' = (s', none)) := by
  refine ⟨?_, fun s' rec h' => decideAndSendOnEnd_noop cfg rec s' h'⟩
  induction events generalizing s with
  | nil => simp [endRun]
  | cons e es ih =>
    show ((endRun cfg s (e :: es)).2).length ≤ 1
    cases e with
    | decide rec =>
      rcases hout : (decideAndSendOnEnd cfg rec s).2 with _ | p
      · have hstate := (decideAndSendOnEnd_spec cfg rec s).2 hout
        have : sentAny (decideAndSendOnEnd cfg rec s).1 = false := by
          rw [hstate]; exact h
        simp [endRun, endStep, hout]
        exact ih _ this
      · have hstate := (decideAndSendOnEnd_spec cfg rec s).1 p hout
        have hsilent := endRun_silent_of_sent cfg es _ hstate
        simp [endRun, endStep, hout, hsilent]
    | setGates g =>
      simp only [endRun, endStep]
      have : sentAny { s with gates := g } = false := by simpa [sentAny] using h
      simpa using ih _ this
    | setParsed p e' =>
      simp only [endRun, endStep]
      have hkeep :
          sentAny { s with parsedLeadCollection := p, parsedLeadCollectionError := e' }
            = false := by
        simpa [sentAny] using h
      simpa using ih _ hkeep

/-- A fresh unlatched session state (used by concrete instances). -/
def freshEndState : SessionEndState where
  gates := initGateState
  parsedLeadCollection := none
  parsedLeadCollectionError := none
  sentFinal := false
  sentPartial := false
  sentAbandoned := false
  recordingResolved := false
  recordingPublicUrl := none

/-- A fully configured webhook setup (used by concrete instances). -/
def fullCfg : WebhookCfg where
  finalUrlSet := true
  abandonedUrlSet := true
  llmEnabled := false

/-- Witness for C2: a concrete double-trigger run (closing-forced then
transport stop) dispatches at most one notification. -/
theorem C2_exactly_once_dispatch_witness :
    sentAny freshEndState = false ∧
    ((endRun fullCfg freshEndState
        [EndEvent.decide none, EndEvent.decide none]).2).length ≤ 1 ∧
    (∀ (s' : SessionEndState) (rec : Option String),
       s'.sentFinal = true ∨ s'.sentPartial = true ∨ s'.sentAbandoned = true →
       decideAndSendOnEnd fullCfg rec s' = (s', none)) :=
  ⟨rfl, (C2_exactly_once_dispatch fullCfg freshEndState
      [EndEvent.decide none, EndEvent.decide none] rfl).1,
    (C2_exactly_once_dispatch fullCfg freshEndState
      [EndEvent.decide none, EndEvent.decide none] rfl).2⟩

/-! ### C9: recording resolution never blocks the decision -/

/-- Helper: an unresolved recording outcome leaves the public URL
absent. -/
theorem ensureRecordingResolved_url_none (s : SessionEndState)
    (h : s.recordingPublicUrl = none) :
    (ensureRecordingResolved s none).recordingPublicUrl = none := by
  unfold ensureRecordingResolved
  split
  · exact h
  · exact h

/-- Helper: `sendFinalOnce` on an unlatched state with the FINAL
webhook configured dispatches the FINAL payload. -/
theorem sendFinalOnce_emit (cfg : WebhookCfg) (s : SessionEndState)
    (hf : s.sentFinal = false) (hu : cfg.finalUrlSet = true) :
    sendFinalOnce cfg s =
      ({ s with sentFinal := true },
       some { buildBasePayload { s with sentFinal := true } with
                event_type := "FINAL", lead_decision := "FINAL",
                notes_internal :=
                  some (buildNotesInternalForDecision cfg "FINAL"
                    { s with sentFinal := true }) }) := by
  unfold sendFinalOnce
  rw [if_neg (by simp [hf]), if_neg (by simp [hu])]

/-- Helper: `sendPartialOnce` on an unlatched state with the FINAL
webhook configured dispatches the PARTIAL payload. -/
theorem sendPartialOnce_emit (cfg : WebhookCfg) (s : SessionEndState)
    (hf : s.sentPartial = false) (hu : cfg.finalUrlSet = true) :
    sendPartialOnce cfg s =
      ({ s with sentPartial := true },
       some { buildBasePayload { s with sentPartial := true } with
                event_type := "PARTIAL", lead_decision := "PARTIAL",
                notes_internal :=
                  some (buildNotesInternalForDecision cfg "PARTIAL"
                    { s with sentPartial := true }) }) := by
  unfold sendPartialOnce
  rw [if_neg (by simp [hf]), if_neg (by simp [hu])]

/-- Helper: `sendAbandonedOnce` on an unlatched state with the
ABANDONED webhook configured dispatches the ABANDONED payload. -/
theorem sendAbandonedOnce_emit (cfg : WebhookCfg) (s : SessionEndState)
    (hf : s.sentAbandoned = false) (hu : cfg.abandonedUrlSet = true) :
    sendAbandonedOnce cfg s =
      ({ s with sentAbandoned := true },
       some { buildBasePayload { s with sentAbandoned := true } with
                event_type := "ABANDONED", lead_decision := "ABANDONED",
                notes_internal :=
                  some (buildNotesInternalForDecision cfg "ABANDONED"
                    { s with sentAbandoned := true }) }) := by
  unfold sendAbandonedOnce
  rw [if_neg (by simp [hf]), if_neg (by simp [hu])]

/-- Helper: with no resolved recording, the internal notes of any of
the three dispatched categories record the missing recording. -/
theorem buildNotesParts_missing (cfg : WebhookCfg) (d : String)
    (s : SessionEndState) (hurl : s.recordingPublicUrl = none)
    (hd : d = "FINAL" ∨ d = "PARTIAL" ∨ d = "ABANDONED") :
    "recording_public_url=missing" ∈ buildNotesParts cfg d s := by
  unfold buildNotesParts
  simp only [List.append_assoc, List.mem_append]
  refine Or.inr (Or.inr (Or.inr (Or.inr (Or.inl ?_))))
  rw [if_pos ⟨hurl, hd⟩]
  exact List.mem_singleton.mpr rfl

/-- C9: a failed or timed-out recording resolution (outcome `none`)
never blocks or changes the disposition: from an unlatched state with
both webhooks configured, the decision point still dispatches exactly
its category's notification, whose payload carries a null recording
URL and whose internal notes contain the `recording_public_url=missing`
marker; and the dispatched category is the same as with any resolved
recording outcome. -/
theorem C9_recording_nonblocking (cfg : WebhookCfg) (s : SessionEndState) (u : String)
    (hf : s.sentFinal = false) (hp : s.sentPartial = false)
    (ha : s.sentAbandoned = false)
    (hfu : cfg.finalUrlSet = true) (hau : cfg.abandonedUrlSet = true)
    (hurl : s.recordingPublicUrl = none) :
    (∃ p : Payload, (decideAndSendOnEnd cfg none s).2 = some p ∧
       p.recording_public_url = none ∧
       (p.event_type = "FINAL" ∨ p.event_type = "PARTIAL" ∨
        p.event_type = "ABANDONED") ∧
       p.notes_internal = some (String.intercalate " | "
         (buildNotesParts cfg p.event_type (decideAndSendOnEnd cfg none s).1)) ∧
       "recording_public_url=missing" ∈
         buildNotesParts cfg p.event_type (decideAndSendOnEnd cfg none s).1) ∧
    ((decideAndSendOnEnd cfg none s).2).map Payload.event_type =
      ((decideAndSendOnEnd cfg (some u) s).2).map Payload.event_type := by
  have henr := decideEnrich_preserves cfg s
  have hguard : ¬ (s.sentFinal = true ∨ s.sentPartial = true ∨ s.sentAbandoned = true) := by
    simp [hf, hp, ha]
  set s1 := decideEnrich cfg s with hs1
  have h1url : s1.recordingPublicUrl = none := by rw [hs1, henr.2.2.2.1, hurl]
  set s2 := ensureRecordingResolved s1 none with hs2
  have h2 := ensureRecordingResolved_preserves s1 none
  have h2url : s2.recordingPublicUrl = none := by
    rw [hs2]; exact ensureRecordingResolved_url_none s1 h1url
  have h2f : s2.sentFinal = false := by rw [hs2, h2.1, hs1, henr.1, hf]
  have h2p : s2.sentPartial = false := by rw [hs2, h2.2.1, hs1, henr.2.1, hp]
  have h2a : s2.sentAbandoned = false := by rw [hs2, h2.2.2.1, hs1, henr.2.2.1, ha]
  set s2b := ensureRecordingResolved s1 (some u) with hs2b
  have h2b := ensureRecordingResolved_preserves s1 (some u)
  have h2bf : s2b.sentFinal = false := by rw [hs2b, h2b.1, hs1, henr.1, hf]
  have h2bp : s2b.sentPartial = false := by rw [hs2b, h2b.2.1, hs1, henr.2.1, hp]
  have h2ba : s2b.sentAbandoned = false := by rw [hs2b, h2b.2.2.1, hs1, henr.2.2.1, ha]
  have hgates : s2b.gates = s2.gates := by
    rw [hs2b, hs2, h2b.2.2.2.1, h2.2.2.2.1]
  have hda : decideAndSendOnEnd cfg none s = decideDispatch cfg s2 := by
    unfold decideAndSendOnEnd
    rw [if_neg hguard, ← hs1, ← hs2]
  have hdb : decideAndSendOnEnd cfg (some u) s = decideDispatch cfg s2b := by
    unfold decideAndSendOnEnd
    rw [if_neg hguard, ← hs1, ← hs2b]
  rw [hda, hdb]
  unfold decideDispatch
  rw [hgates]
  split
  · rw [sendFinalOnce_emit cfg s2 h2f hfu, sendFinalOnce_emit cfg s2b h2bf hfu]
    refine ⟨⟨_, rfl, ?_, Or.inl rfl, rfl, ?_⟩, rfl⟩
    · simpa [buildBasePayload] using h2url
    · exact buildNotesParts_missing cfg _ _ (by simpa using h2url) (Or.inl rfl)
  · split
    · rw [sendPartialOnce_emit cfg s2 h2p hfu, sendPartialOnce_emit cfg s2b h2bp hfu]
      refine ⟨⟨_, rfl, ?_, Or.inr (Or.inl rfl), rfl, ?_⟩, rfl⟩
      · simpa [buildBasePayload] using h2url
      · exact buildNotesParts_missing cfg _ _ (by simpa using h2url)
          (Or.inr (Or.inl rfl))
    · split
      · rw [sendAbandonedOnce_emit cfg s2 h2a hau, sendAbandonedOnce_emit cfg s2b h2ba hau]
        refine ⟨⟨_, rfl, ?_, Or.inr (Or.inr rfl), rfl, ?_⟩, rfl⟩
        · simpa [buildBasePayload] using h2url
        · exact buildNotesParts_missing cfg _ _ (by simpa using h2url)
            (Or.inr (Or.inr rfl))
      · rw [sendPartialOnce_emit cfg s2 h2p hfu, sendPartialOnce_emit cfg s2b h2bp hfu]
        refine ⟨⟨_, rfl, ?_, Or.inr (Or.inl rfl), rfl, ?_⟩, rfl⟩
        · simpa [buildBasePayload] using h2url
        · exact buildNotesParts_missing cfg _ _ (by simpa using h2url)
            (Or.inr (Or.inl rfl))

/-- Witness for C9 at a fresh session (no gates satisfied, recording
unresolved): the ABANDONED dispatch proceeds with a null recording
URL. -/
theorem C9_recording_nonblocking_witness :
    (freshEndState.sentFinal = false ∧ freshEndState.recordingPublicUrl = none ∧
     fullCfg.finalUrlSet = true) ∧
    ((∃ p : Payload, (decideAndSendOnEnd fullCfg none freshEndState).2 = some p ∧
       p.recording_public_url = none ∧
       (p.event_type = "FINAL" ∨ p.event_type = "PARTIAL" ∨
        p.event_type = "ABANDONED") ∧
       p.notes_internal = some (String.intercalate " | "
         (buildNotesParts fullCfg p.event_type
           (decideAndSendOnEnd fullCfg none freshEndState).1)) ∧
       "recording_public_url=missing" ∈
         buildNotesParts fullCfg p.event_type
           (decideAndSendOnEnd fullCfg none freshEndState).1) ∧
     ((decideAndSendOnEnd fullCfg none freshEndState).2).map Payload.event_type =
       ((decideAndSendOnEnd fullCfg (some "https://example.org/r.mp3")
           freshEndState).2).map Payload.event_type) :=
  ⟨⟨rfl, rfl, rfl⟩,
   C9_recording_nonblocking fullCfg freshEndState "https://example.org/r.mp3"
     rfl rfl rfl rfl rfl rfl⟩

/-! ### C6: write-once behaviour of the captured fields -/

/-- The one unguarded overwrite path: a "yes" answer while the
caller-ID callback confirmation gate is armed (the `isYes` branch at
src/server.js lines 1606-1609 assigns `callbackToNumber` without
checking that it is already set). -/
def confirmYesOverwrite (s : GateState) : GateEvent → Bool
  | GateEvent.user _ t =>
    s.expectingCallbackConfirm && isYes (String.mk (trimL t.toList))
  | _ => false

/-- Helper: a captured name disables every name-capture branch. -/
theorem nameCaptureStep_none_of_captured (ctx : GateCtx) (now : Nat)
    (s : GateState) (text : String) (v : String) (h : s.capturedName = some v) :
    nameCaptureStep ctx now s text = none := by
  unfold nameCaptureStep
  rw [if_neg (by simp [h])]
  simp [h]

/-- Helper: a successful name capture changes no other captured field
and no callback gate. -/
theorem nameCaptureStep_preserves (ctx : GateCtx) (now : Nat) (s : GateState)
    (text : String) (s' : GateState) (h : nameCaptureStep ctx now s text = some s') :
    s'.capturedMessage = s.capturedMessage ∧
    s'.callbackToNumber = s.callbackToNumber ∧
    s'.expectingCallbackConfirm = s.expectingCallbackConfirm := by
  unfold nameCaptureStep at h
  split at h
  · injection h with h2
    subst h2
    exact ⟨rfl, rfl, rfl⟩
  · split at h
    · injection h with h2
      subst h2
      exact ⟨rfl, rfl, rfl⟩
    · split at h
      · injection h with h2
        subst h2
        exact ⟨rfl, rfl, rfl⟩
      · exact absurd h (by simp)

/-- Helper: the closing latch touches no captured field. -/
theorem gatesClosingStep_preserves (s : GateState) (text : String) :
    (gatesClosingStep s text).capturedName = s.capturedName ∧
    (gatesClosingStep s text).capturedMessage = s.capturedMessage ∧
    (gatesClosingStep s text).callbackToNumber = s.callbackToNumber ∧
    (gatesClosingStep s text).expectingCallbackConfirm = s.expectingCallbackConfirm ∧
    (gatesClosingStep s text).expectingMessage = s.expectingMessage ∧
    (gatesClosingStep s text).expectingCallbackNumber = s.expectingCallbackNumber := by
  unfold gatesClosingStep
  split <;> exact ⟨rfl, rfl, rfl, rfl, rfl, rfl⟩

/-- Helper: the INFO latch touches no captured field. -/
theorem gatesInfoStep_preserves (s : GateState) (text : String) :
    (gatesInfoStep s text).capturedName = s.capturedName ∧
    (gatesInfoStep s text).capturedMessage = s.capturedMessage ∧
    (gatesInfoStep s text).callbackToNumber = s.callbackToNumber ∧
    (gatesInfoStep s text).expectingCallbackConfirm = s.expectingCallbackConfirm ∧
    (gatesInfoStep s text).expectingMessage = s.expectingMessage ∧
    (gatesInfoStep s text).expectingCallbackNumber = s.expectingCallbackNumber := by
  unfold gatesInfoStep
  split <;> exact ⟨rfl, rfl, rfl, rfl, rfl, rfl⟩

/-- Helper: the callback-request latch touches no captured field. -/
theorem gatesCallbackFlagStep_preserves (s : GateState) (text : String) :
    (gatesCallbackFlagStep s text).capturedName = s.capturedName ∧
    (gatesCallbackFlagStep s text).capturedMessage = s.capturedMessage ∧
    (gatesCallbackFlagStep s text).callbackToNumber = s.callbackToNumber ∧
    (gatesCallbackFlagStep s text).expectingCallbackConfirm = s.expectingCallbackConfirm ∧
    (gatesCallbackFlagStep s text).expectingMessage = s.expectingMessage ∧
    (gatesCallbackFlagStep s text).expectingCallbackNumber = s.expectingCallbackNumber := by
  unfold gatesCallbackFlagStep
  split <;> exact ⟨rfl, rfl, rfl, rfl, rfl, rfl⟩

/-- Helper: the capture chain never touches the captured name, never
overwrites a captured message, and overwrites a captured callback
number only through the confirm-"yes" branch. -/
theorem gatesCaptureStep_preserves (ctx : GateCtx) (s : GateState) (text : String) :
    (gatesCaptureStep ctx s text).capturedName = s.capturedName ∧
    (∀ v, s.capturedMessage = some v →
       (gatesCaptureStep ctx s text).capturedMessage = some v) ∧
    (∀ v, s.callbackToNumber = some v →
       (s.expectingCallbackConfirm = true → isYes text = false) →
       (gatesCaptureStep ctx s text).callbackToNumber = some v) := by
  unfold gatesCaptureStep
  refine ⟨?_, ?_, ?_⟩
  · split
    · dsimp only
      split <;> rfl
    · split
      · split
        · rfl
        · split <;> rfl
      · split
        · split <;> rfl
        · rfl
  · intro v hv
    split
    case _ hcond => exact absurd hcond (by simp [hv])
    case _ =>
      split
      · split
        · exact hv
        · split <;> exact hv
      · split
        · split <;> exact hv
        · exact hv
  · intro v hv hno
    split
    · dsimp only
      split <;> exact hv
    · split
      case _ hconf =>
        rw [if_neg (by simp [hno hconf])]
        split <;> exact hv
      case _ =>
        split
        case _ hcond => exact absurd hcond.2 (by simp [hv])
        case _ => exact hv

/-- Helper: the INFO-answer delta step touches no captured field. -/
theorem deltaInfoStep_preserves (s : GateState) (d : String) :
    (deltaInfoStep s d).capturedName = s.capturedName ∧
    (deltaInfoStep s d).capturedMessage = s.capturedMessage ∧
    (deltaInfoStep s d).callbackToNumber = s.callbackToNumber := by
  unfold deltaInfoStep
  dsimp only
  split <;> split <;> exact ⟨rfl, rfl, rfl⟩

/-- Helper: the message-gate arming step touches no captured field. -/
theorem deltaMessageArmStep_preserves (s : GateState) (d : String) :
    (deltaMessageArmStep s d).capturedName = s.capturedName ∧
    (deltaMessageArmStep s d).capturedMessage = s.capturedMessage ∧
    (deltaMessageArmStep s d).callbackToNumber = s.callbackToNumber := by
  unfold deltaMessageArmStep
  split <;> exact ⟨rfl, rfl, rfl⟩

/-- Helper: the confirm-gate arming step touches no captured field. -/
theorem deltaConfirmArmStep_preserves (s : GateState) (d : String) :
    (deltaConfirmArmStep s d).capturedName = s.capturedName ∧
    (deltaConfirmArmStep s d).capturedMessage = s.capturedMessage ∧
    (deltaConfirmArmStep s d).callbackToNumber = s.callbackToNumber := by
  unfold deltaConfirmArmStep
  split <;> exact ⟨rfl, rfl, rfl⟩

/-- Helper: the number-gate arming step touches no captured field. -/
theorem deltaNumberArmStep_preserves (s : GateState) (d : String) :
    (deltaNumberArmStep s d).capturedName = s.capturedName ∧
    (deltaNumberArmStep s d).capturedMessage = s.capturedMessage ∧
    (deltaNumberArmStep s d).callbackToNumber = s.callbackToNumber := by
  unfold deltaNumberArmStep
  split <;> exact ⟨rfl, rfl, rfl⟩

/-- Helper: assistant transcript deltas touch no captured field. -/
theorem applyAssistantDelta_preserves (s : GateState) (d : String) :
    (applyAssistantDelta s d).capturedName = s.capturedName ∧
    (applyAssistantDelta s d).capturedMessage = s.capturedMessage ∧
    (applyAssistantDelta s d).callbackToNumber = s.callbackToNumber := by
  unfold applyAssistantDelta
  refine ⟨?_, ?_, ?_⟩
  · rw [(deltaNumberArmStep_preserves _ _).1, (deltaConfirmArmStep_preserves _ _).1,
        (deltaMessageArmStep_preserves _ _).1, (deltaInfoStep_preserves _ _).1]
    rfl
  · rw [(deltaNumberArmStep_preserves _ _).2.1, (deltaConfirmArmStep_preserves _ _).2.1,
        (deltaMessageArmStep_preserves _ _).2.1, (deltaInfoStep_preserves _ _).2.1]
    rfl
  · rw [(deltaNumberArmStep_preserves _ _).2.2, (deltaConfirmArmStep_preserves _ _).2.2,
        (deltaMessageArmStep_preserves _ _).2.2, (deltaInfoStep_preserves _ _).2.2]
    rfl

/-- Helper: the transcript-done handler touches no captured field. -/
theorem applyAssistantDone_preserves (now : Nat) (s : GateState) :
    (applyAssistantDone now s).capturedName = s.capturedName ∧
    (applyAssistantDone now s).capturedMessage = s.capturedMessage ∧
    (applyAssistantDone now s).callbackToNumber = s.callbackToNumber := by
  unfold applyAssistantDone
  dsimp only
  split <;> split <;> exact ⟨rfl, rfl, rfl⟩

/-- Helper: name enrichment fills only an empty name and touches
nothing else. -/
theorem enrichNameStep_preserves (s : GateState) (lead : ParsedLead) :
    (∀ v, s.capturedName = some v → (enrichNameStep s lead).capturedName = some v) ∧
    (enrichNameStep s lead).capturedMessage = s.capturedMessage ∧
    (enrichNameStep s lead).callbackToNumber = s.callbackToNumber := by
  unfold enrichNameStep
  refine ⟨?_, ?_, ?_⟩
  · intro v hv
    rw [if_neg (by simp [hv]), hv]
  · split <;> rfl
  · split <;> rfl

/-- Helper: message enrichment fills only an empty message and touches
nothing else. -/
theorem enrichMessageStep_preserves (s : GateState) (lead : ParsedLead) :
    (enrichMessageStep s lead).capturedName = s.capturedName ∧
    (∀ v, s.capturedMessage = some v →
       (enrichMessageStep s lead).capturedMessage = some v) ∧
    (enrichMessageStep s lead).callbackToNumber = s.callbackToNumber := by
  unfold enrichMessageStep
  refine ⟨?_, ?_, ?_⟩
  · split <;> rfl
  · intro v hv
    rw [if_neg (by simp [hv]), hv]
  · split <;> rfl

/-- Helper: phone enrichment fills only an empty callback number and
touches nothing else. -/
theorem enrichPhoneStep_preserves (s : GateState) (lead : ParsedLead) :
    (enrichPhoneStep s lead).capturedName = s.capturedName ∧
    (enrichPhoneStep s lead).capturedMessage = s.capturedMessage ∧
    (∀ v, s.callbackToNumber = some v →
       (enrichPhoneStep s lead).callbackToNumber = some v) := by
  unfold enrichPhoneStep
  refine ⟨?_, ?_, ?_⟩
  · split
    · split <;> rfl
    · rfl
  · split
    · split <;> rfl
    · rfl
  · intro v hv
    rw [if_neg (by simp [hv]), hv]

/-- Helper: the final re-normalization keeps a normalize-fixed callback
number and touches nothing else. -/
theorem enrichRenormalizeStep_preserves (s : GateState) :
    (enrichRenormalizeStep s).capturedName = s.capturedName ∧
    (enrichRenormalizeStep s).capturedMessage = s.capturedMessage ∧
    (∀ v, s.callbackToNumber = some v → (normalizePhoneLocal v).getD v = v →
       (enrichRenormalizeStep s).callbackToNumber = some v) := by
  unfold enrichRenormalizeStep
  refine ⟨?_, ?_, ?_⟩
  · split <;> rfl
  · split <;> rfl
  · intro v hv hfix
    split
    case _ w hw =>
      rw [hv] at hw
      injection hw with hw2
      subst hw2
      simp [hfix]
    case _ hw => rw [hv] at hw; simp at hw

/-- Helper: LLM enrichment only fills empty fields, and re-normalizing a
normalize-fixed callback number keeps it. -/
theorem applyLlmEnrichmentForDecision_preserves (s : GateState)
    (lead : Option ParsedLead) :
    (∀ v, s.capturedName = some v →
       (applyLlmEnrichmentForDecision s lead).capturedName = some v) ∧
    (∀ v, s.capturedMessage = some v →
       (applyLlmEnrichmentForDecision s lead).capturedMessage = some v) ∧
    (∀ v, s.callbackToNumber = some v → (normalizePhoneLocal v).getD v = v →
       (applyLlmEnrichmentForDecision s lead).callbackToNumber = some v) := by
  cases lead with
  | none => exact ⟨fun v hv => hv, fun v hv => hv, fun v hv _ => hv⟩
  | some l =>
    have hform : applyLlmEnrichmentForDecision s (some l) =
        enrichRenormalizeStep
          (enrichPhoneStep (enrichMessageStep (enrichNameStep s l) l) l) := rfl
    rw [hform]
    refine ⟨?_, ?_, ?_⟩
    · intro v hv
      rw [(enrichRenormalizeStep_preserves _).1, (enrichPhoneStep_preserves _ _).1,
          (enrichMessageStep_preserves _ _).1]
      exact (enrichNameStep_preserves s l).1 v hv
    · intro v hv
      rw [(enrichRenormalizeStep_preserves _).2.1, (enrichPhoneStep_preserves _ _).2.1]
      exact (enrichMessageStep_preserves _ l).2.1 v
        (by rw [(enrichNameStep_preserves s l).2.1, hv])
    · intro v hv hfix
      refine (enrichRenormalizeStep_preserves _).2.2 v ?_ hfix
      refine (enrichPhoneStep_preserves _ l).2.2 v ?_
      rw [(enrichMessageStep_preserves _ l).2.2, (enrichNameStep_preserves s l).2.2, hv]

/-- Helper: `gatesTail` never touches the captured name, never
overwrites a captured message, and overwrites a captured callback
number only through the confirm-"yes" branch. -/
theorem gatesTail_preserves (ctx : GateCtx) (s : GateState) (text : String) :
    (gatesTail ctx s text).capturedName = s.capturedName ∧
    (∀ v, s.capturedMessage = some v →
       (gatesTail ctx s text).capturedMessage = some v) ∧
    (∀ v, s.callbackToNumber = some v →
       (s.expectingCallbackConfirm = true → isYes text = false) →
       (gatesTail ctx s text).callbackToNumber = some v) := by
  have c1 := gatesClosingStep_preserves s text
  have c2 := gatesInfoStep_preserves (gatesClosingStep s text) text
  have c3 := gatesCallbackFlagStep_preserves
    (gatesInfoStep (gatesClosingStep s text) text) text
  have hcap := gatesCaptureStep_preserves ctx
    (gatesCallbackFlagStep (gatesInfoStep (gatesClosingStep s text) text) text) text
  unfold gatesTail
  refine ⟨?_, ?_, ?_⟩
  · rw [hcap.1, c3.1, c2.1, c1.1]
  · intro v hv
    exact hcap.2.1 v (by rw [c3.2.1, c2.2.1, c1.2.1, hv])
  · intro v hv hno
    refine hcap.2.2 v (by rw [c3.2.2.1, c2.2.2.1, c1.2.2.1, hv]) ?_
    intro hc
    apply hno
    rw [← c1.2.2.2.1, ← c2.2.2.2.1, ← c3.2.2.2.1]
    exact hc

/-- Helper: the full caller-utterance handler never overwrites a
captured name or message, and overwrites a captured callback number
only when the confirm gate is armed and the utterance is a "yes". -/
theorem applyDeterministicGates_user_preserves (ctx : GateCtx) (now : Nat)
    (s : GateState) (t : String) :
    (∀ v, s.capturedName = some v →
       (applyDeterministicGatesFromUserUtterance ctx now s t).capturedName = some v) ∧
    (∀ v, s.capturedMessage = some v →
       (applyDeterministicGatesFromUserUtterance ctx now s t).capturedMessage = some v) ∧
    (∀ v, s.callbackToNumber = some v →
       (s.expectingCallbackConfirm = true →
         isYes (String.mk (trimL t.toList)) = false) →
       (applyDeterministicGatesFromUserUtterance ctx now s t).callbackToNumber
         = some v) := by
  unfold applyDeterministicGatesFromUserUtterance
  dsimp only
  split
  case _ => exact ⟨fun v hv => hv, fun v hv => hv, fun v hv _ => hv⟩
  case _ hne =>
    set text := String.mk (trimL t.toList) with htext
    set s1 : GateState := { s with userUtteranceCount := s.userUtteranceCount + 1 }
      with hs1
    set s2 : GateState :=
      (if s1.expectingName ∧ s1.assistantAskedNameAt ≠ 0 ∧
          MB_NAME_EXPECTING_TTL_MS < now - s1.assistantAskedNameAt then
        { s1 with expectingName := false, assistantAskedNameAt := 0 }
      else s1) with hs2
    have hs2fields : s2.capturedName = s.capturedName ∧
        s2.capturedMessage = s.capturedMessage ∧
        s2.callbackToNumber = s.callbackToNumber ∧
        s2.expectingCallbackConfirm = s.expectingCallbackConfirm := by
      rw [hs2]
      split <;> exact ⟨rfl, rfl, rfl, rfl⟩
    have htail := gatesTail_preserves ctx s2 text
    refine ⟨?_, ?_, ?_⟩
    · intro v hv
      rw [nameCaptureStep_none_of_captured ctx now s2 text v (by rw [hs2fields.1, hv])]
      rw [htail.1, hs2fields.1, hv]
    · intro v hv
      rcases hcap : nameCaptureStep ctx now s2 text with _ | s'
      · exact htail.2.1 v (by rw [hs2fields.2.1, hv])
      · have hpres := nameCaptureStep_preserves ctx now s2 text s' hcap
        rw [hpres.1, hs2fields.2.1, hv]
    · intro v hv hexc
      rcases hcap : nameCaptureStep ctx now s2 text with _ | s'
      · refine htail.2.2 v (by rw [hs2fields.2.2.1, hv]) ?_
        intro hc
        exact hexc (by rw [← hs2fields.2.2.2]; exact hc)
      · have hpres := nameCaptureStep_preserves ctx now s2 text s' hcap
        rw [hpres.2.1, hs2fields.2.2.1, hv]

/-- C6 amended: the captured name and the captured message are
write-once for every gate event; the captured callback number (whose
reachable values are normalize-fixed) is write-once for every event
except the single unguarded path in which the caller answers "yes" to
the armed caller-ID callback confirmation, which overwrites it with the
normalized caller address. -/
theorem C6_write_once_amended (ctx : GateCtx) (s : GateState) (e : GateEvent) :
    (∀ v, s.capturedName = some v → (gateStep ctx s e).capturedName = some v) ∧
    (∀ v, s.capturedMessage = some v → (gateStep ctx s e).capturedMessage = some v) ∧
    (∀ v, s.callbackToNumber = some v → (normalizePhoneLocal v).getD v = v →
       confirmYesOverwrite s e = false →
       (gateStep ctx s e).callbackToNumber = some v) := by
  cases e with
  | asstDelta d =>
    have h := applyAssistantDelta_preserves s d
    exact ⟨fun v hv => h.1.trans hv, fun v hv => h.2.1.trans hv,
           fun v hv _ _ => h.2.2.trans hv⟩
  | asstDone now =>
    have h := applyAssistantDone_preserves now s
    exact ⟨fun v hv => h.1.trans hv, fun v hv => h.2.1.trans hv,
           fun v hv _ _ => h.2.2.trans hv⟩
  | enrich lead =>
    have h := applyLlmEnrichmentForDecision_preserves s lead
    exact ⟨fun v hv => h.1 v hv, fun v hv => h.2.1 v hv,
           fun v hv hfix _ => h.2.2 v hv hfix⟩
  | user now t =>
    have h := applyDeterministicGates_user_preserves ctx now s t
    refine ⟨h.1, h.2.1, fun v hv _ hexc => h.2.2 v hv ?_⟩
    intro hc
    have hb : (s.expectingCallbackConfirm &&
        isYes (String.mk (trimL t.toList))) = false := hexc
    rw [hc] at hb
    simpa using hb

/-- A concrete gate state with all three capture fields set. -/
def c6wstate : GateState := { initGateState with
  capturedName := some "דנה"
  capturedMessage := some "בקשר לחשבונית"
  callbackToNumber := some "0501234567" }

/-- Witness for C6 (amended) at a concrete state and event: a captured
name and message and a normalize-fixed callback number survive an
assistant transcript delta. -/
theorem C6_write_once_amended_witness :
    c6wstate.capturedName = some "דנה" ∧
    (gateStep c6ctx c6wstate (GateEvent.asstDelta "שלום")).capturedName
      = some "דנה" ∧
    (gateStep c6ctx c6wstate (GateEvent.asstDelta "שלום")).capturedMessage
      = some "בקשר לחשבונית" ∧
    (gateStep c6ctx c6wstate (GateEvent.asstDelta "שלום")).callbackToNumber
      = some "0501234567" :=
  ⟨rfl,
   (C6_write_once_amended c6ctx c6wstate (GateEvent.asstDelta "שלום")).1
     "דנה" rfl,
   (C6_write_once_amended c6ctx c6wstate (GateEvent.asstDelta "שלום")).2.1
     "בקשר לחשבונית" rfl,
   (C6_write_once_amended c6ctx c6wstate (GateEvent.asstDelta "שלום")).2.2
     "0501234567" rfl (by decide) (by decide)⟩

/-! ### C4: turn-request gating -/

/-- A concrete turn state: session configured and ready, a turn in
flight, ample frames and debounce headroom. -/
def c4state : TurnState where
  wsOpen := true
  openaiReady := true
  sessionConfigured := true
  pendingCreate := false
  responseInFlight := true
  lastResponseCreateAt := 0
  userFramesSinceLastCreate := 10
  assistantSpeaking := true
  callEnding := false
  callEnded := false
  closingResponsePending := false

/-- C4 counterexample: a turn request arriving while a response is in
flight is rejected without being latched (`pendingCreate` stays
`false`), and the completion handler only clears the in-flight flag —
it issues no request and consults no latch — even though immediately
after completion the request would have been fully warranted (ready,
configured, past the debounce window, with ample frames). -/
theorem C4_counterexample :
    maybeCreateResponse 5000 c4state = (c4state, false) ∧
    responseCompletedStep c4state =
      { c4state with responseInFlight := false, assistantSpeaking := false } ∧
    (responseCompletedStep c4state).pendingCreate = false ∧
    (maybeCreateResponse 5000 (responseCompletedStep c4state)).2 = true := by
  refine ⟨by decide, by decide, by decide, by decide⟩

/-- C4 amended: a free-form turn request is issued only when no
response is in flight, the call is not ending, the AI socket is open,
ready and configured, at least `DEBOUNCE_MS` (350ms) have elapsed since
the last request and at least `MIN_FRAMES` (4) caller frames have
arrived since; while a turn is in flight the request is rejected as a
strict no-op (not latched); a request arriving before the AI link is
ready is latched as pending and re-attempted when the connection opens
(where the just-sent opening utterance holds the in-flight flag, so the
open handler emits exactly its one opening `response.create`); and a
request rejected due to an in-flight turn is NOT retried at turn
completion — the completion handler only clears the in-flight and
speaking flags and never consults the pending latch. -/
theorem C4_turn_gating_amended :
    (∀ (now : Nat) (s : TurnState), (maybeCreateResponse now s).2 = true →
       s.responseInFlight = false ∧ s.callEnding = false ∧ s.callEnded = false ∧
       s.wsOpen = true ∧ s.openaiReady = true ∧ s.sessionConfigured = true ∧
       DEBOUNCE_MS ≤ now - s.lastResponseCreateAt ∧
       MIN_FRAMES ≤ s.userFramesSinceLastCreate) ∧
    (∀ (now : Nat) (s : TurnState), s.responseInFlight = true →
       maybeCreateResponse now s = (s, false)) ∧
    (∀ (now : Nat) (s : TurnState), s.responseInFlight = false →
       s.callEnding = false → s.callEnded = false →
       ¬ (s.wsOpen = true ∧ s.openaiReady = true ∧ s.sessionConfigured = true) →
       maybeCreateResponse now s = ({ s with pendingCreate := true }, false)) ∧
    (∀ s : TurnState, (responseCompletedStep s).responseInFlight = false ∧
       (responseCompletedStep s).assistantSpeaking = false ∧
       (responseCompletedStep s).pendingCreate = s.pendingCreate) ∧
    (∀ (now : Nat) (s : TurnState), s.callEnding = false → s.callEnded = false →
       (openaiOpenHandler now s).2 = 1) := by
  refine ⟨?_, ?_, ?_, ?_, ?_⟩
  · intro now s h
    unfold maybeCreateResponse at h
    split at h
    · simp at h
    · split at h
      · simp at h
      · split at h
        · simp at h
        · split at h
          · simp at h
          · rename_i h1 h2 h3 h4
            push_neg at h1
            refine ⟨?_, ?_, ?_, ?_, ?_, ?_, ?_, ?_⟩
            · simpa using h1.1
            · simpa using h1.2.1
            · simpa using h1.2.2
            · simpa using (not_not.mp h2).1
            · simpa using (not_not.mp h2).2.1
            · simpa using (not_not.mp h2).2.2
            · omega
            · omega
  · intro now s h
    unfold maybeCreateResponse
    rw [if_pos (Or.inl h)]
  · intro now s h1 h2 h3 h4
    unfold maybeCreateResponse
    rw [if_neg (by simp [h1, h2, h3]), if_pos h4]
  · intro s
    unfold responseCompletedStep
    dsimp only
    split <;> exact ⟨rfl, rfl, rfl⟩
  · intro now s h1 h2
    unfold openaiOpenHandler
    dsimp only
    rw [if_neg (by simp [h1, h2])]
    split
    · rw [show maybeCreateResponse now
          { s with wsOpen := true, openaiReady := true, sessionConfigured := true, responseInFlight := true, assistantSpeaking := true }
          = ({ s with wsOpen := true, openaiReady := true, sessionConfigured := true, responseInFlight := true, assistantSpeaking := true }, false) from by
        unfold maybeCreateResponse
        rw [if_pos (Or.inl rfl)]]
      rfl
    · rfl

/-- Witness for C4 (amended): the in-flight rejection and the
not-ready latch at concrete states. -/
theorem C4_turn_gating_amended_witness :
    c4state.responseInFlight = true ∧
    maybeCreateResponse 9999 c4state = (c4state, false) ∧
    (c4state.callEnding = false ∧ c4state.callEnded = false) ∧
    (openaiOpenHandler 9999 c4state).2 = 1 :=
  ⟨rfl, C4_turn_gating_amended.2.1 9999 c4state rfl, ⟨rfl, rfl⟩,
   C4_turn_gating_amended.2.2.2.2 9999 c4state rfl rfl⟩

/-! ### C7: audio frame queue order and overflow -/

set_option maxRecDepth 100000 in
/-- Helper: queueing while the AI link is not ready keeps exactly the
newest `MAX_QUEUE_FRAMES` frames: the queue equals the suffix of all
arrivals with the oldest overflow dropped. -/
theorem mediaRun_queue_lastN (cfg : MediaCfg) :
    ∀ (frames : List Nat) (s : MediaState),
      s.wsOpen = false → s.callEnding = false → s.callEnded = false →
      s.assistantSpeaking = false → s.audioQueue.length ≤ MAX_QUEUE_FRAMES →
      (mediaRun cfg s (frames.map MediaEvent.media)).audioQueue
        = (s.audioQueue ++ frames).drop
            ((s.audioQueue ++ frames).length - MAX_QUEUE_FRAMES) := by
  intro frames
  induction frames with
  | nil =>
    intro s _ _ _ _ hlen
    simp [mediaRun, Nat.sub_eq_zero_of_le (by simpa using hlen)]
  | cons p rest ih =>
    intro s hws hce hcd hsp hlen
    have hstep : mediaStep cfg s (MediaEvent.media p) =
        { s with audioQueue :=
            (let q := s.audioQueue ++ [p]
             if MAX_QUEUE_FRAMES < q.length then q.drop (q.length - MAX_QUEUE_FRAMES)
             else q) } := by
      show mediaHandler cfg s p = _
      unfold mediaHandler
      rw [if_neg (by simp [hce, hcd]), if_neg (by simp [hsp]),
          if_pos (by simp [hws])]
    show (mediaRun cfg (mediaStep cfg s (MediaEvent.media p))
        (rest.map MediaEvent.media)).audioQueue = _
    rw [hstep]
    dsimp only
    by_cases hover : MAX_QUEUE_FRAMES < (s.audioQueue ++ [p]).length
    · rw [if_pos hover]
      have hA : s.audioQueue.length = MAX_QUEUE_FRAMES := by
        simp at hover
        omega
      set D := (s.audioQueue ++ [p]).drop
        ((s.audioQueue ++ [p]).length - MAX_QUEUE_FRAMES) with hD
      have hlenD : (({ s with audioQueue := D } : MediaState).audioQueue).length
          ≤ MAX_QUEUE_FRAMES := by
        show D.length ≤ MAX_QUEUE_FRAMES
        rw [hD, List.length_drop]
        omega
      rw [ih ({ s with audioQueue := D } : MediaState) hws hce hcd hsp hlenD]
      dsimp only
      rw [hD]
      have hd1 : (s.audioQueue ++ [p]).length - MAX_QUEUE_FRAMES = 1 := by
        simp
        omega
      rw [hd1]
      have hdrop_app : (s.audioQueue ++ [p]).drop 1 ++ rest
          = ((s.audioQueue ++ [p]) ++ rest).drop 1 :=
        (List.drop_append_of_le_length (by simp)).symm
      rw [hdrop_app]
      have hassoc : (s.audioQueue ++ [p]) ++ rest = s.audioQueue ++ p :: rest := by
        simp
      rw [List.drop_drop, List.length_drop, hassoc]
      congr 1
      simp
      omega
    · rw [if_neg hover]
      have hlen' : (({ s with audioQueue := s.audioQueue ++ [p] } : MediaState).audioQueue).length
          ≤ MAX_QUEUE_FRAMES := by
        show (s.audioQueue ++ [p]).length ≤ MAX_QUEUE_FRAMES
        omega
      rw [ih ({ s with audioQueue := s.audioQueue ++ [p] } : MediaState)
          hws hce hcd hsp hlen']
      dsimp only
      have hassoc : (s.audioQueue ++ [p]) ++ rest = s.audioQueue ++ p :: rest := by
        simp
      rw [hassoc]

/-- A session state in which the AI link is fully up and the call is
live has an empty queue (it was flushed on open and is never refilled). -/
def mediaReadyInv (s : MediaState) : Prop :=
  (s.wsOpen = true ∧ s.openaiReady = true ∧ s.sessionConfigured = true ∧
   s.callEnding = false ∧ s.callEnded = false) → s.audioQueue = []

/-- The frames a single media event contributes. -/
def arrivalsOf : MediaEvent → List Nat
  | MediaEvent.media p => [p]
  | _ => []

/-- Helper: each media step preserves the ready-queue invariant. -/
theorem mediaStep_inv (cfg : MediaCfg) (s : MediaState) (e : MediaEvent)
    (h : mediaReadyInv s) : mediaReadyInv (mediaStep cfg s e) := by
  cases e with
  | media p =>
    show mediaReadyInv (mediaHandler cfg s p)
    unfold mediaHandler
    split
    · exact h
    · split
      · exact h
      · split
        case _ hnr =>
          intro hready
          exact absurd ⟨hready.1, hready.2.1, hready.2.2.1⟩ hnr
        case _ =>
          intro hready
          exact h ⟨hready.1, hready.2.1, hready.2.2.1, hready.2.2.2⟩
  | aiOpen =>
    simp only [mediaStep]
    split
    case _ => intro hready; simp at hready
    case _ hnc =>
      unfold flushAudioQueue
      rw [if_neg (by simp), if_neg (by simpa using hnc), if_neg (by simp)]
      intro _
      rfl
  | speaking b =>
    simp only [mediaStep]
    intro hready
    exact h hready
  | stop =>
    simp only [mediaStep]
    intro hready
    simp at hready

/-- Helper: one media step extends the forwarded-plus-queued frames by
at most the arriving frame, preserving order. -/
theorem mediaStep_sublist (cfg : MediaCfg) (s : MediaState) (e : MediaEvent)
    (hinv : mediaReadyInv s) :
    List.Sublist ((mediaStep cfg s e).forwarded ++ (mediaStep cfg s e).audioQueue)
      (s.forwarded ++ s.audioQueue ++ arrivalsOf e) := by
  cases e with
  | media p =>
    show List.Sublist
      ((mediaHandler cfg s p).forwarded ++ (mediaHandler cfg s p).audioQueue) _
    unfold mediaHandler
    split
    · exact List.sublist_append_left _ _
    · split
      · exact List.sublist_append_left _ _
      · split
        case _ =>
          dsimp only
          show List.Sublist (s.forwarded ++ _) (s.forwarded ++ s.audioQueue ++ [p])
          rw [List.append_assoc]
          refine List.Sublist.append_left ?_ _
          split
          · exact List.drop_sublist _ _
          · exact List.Sublist.refl _
        case _ hr =>
          rename_i hend _
          have hws := not_not.mp hr
          have hend' := not_or.mp hend
          have hq : s.audioQueue = [] :=
            hinv ⟨hws.1, hws.2.1, hws.2.2,
              by simpa using hend'.1, by simpa using hend'.2⟩
          show List.Sublist (s.forwarded ++ [p] ++ s.audioQueue)
            (s.forwarded ++ s.audioQueue ++ [p])
          simp only [hq, List.append_nil]
          exact List.Sublist.refl _
  | aiOpen =>
    simp only [mediaStep]
    split
    case _ =>
      show List.Sublist (s.forwarded ++ s.audioQueue) _
      exact List.sublist_append_left _ _
    case _ hnc =>
      unfold flushAudioQueue
      rw [if_neg (by simp), if_neg (by simpa using hnc), if_neg (by simp)]
      show List.Sublist (s.forwarded ++ s.audioQueue ++ []) _
      exact List.Sublist.refl _
  | speaking b =>
    simp only [mediaStep]
    show List.Sublist (s.forwarded ++ s.audioQueue) _
    exact List.sublist_append_left _ _
  | stop =>
    simp only [mediaStep]
    show List.Sublist (s.forwarded ++ s.audioQueue) _
    exact List.sublist_append_left _ _

/-- Helper: over any event sequence the frames forwarded plus the frames
still queued form a sublist (order-preserving, duplicate-free selection)
of the initial backlog followed by the arrivals. -/
theorem mediaRun_sublist (cfg : MediaCfg) :
    ∀ (events : List MediaEvent) (s : MediaState), mediaReadyInv s →
      List.Sublist
        ((mediaRun cfg s events).forwarded ++ (mediaRun cfg s events).audioQueue)
        (s.forwarded ++ s.audioQueue ++ mediaArrivals events) := by
  intro events
  induction events with
  | nil =>
    intro s _
    show List.Sublist (s.forwarded ++ s.audioQueue) (s.forwarded ++ s.audioQueue ++ mediaArrivals [])
    rw [show mediaArrivals [] = [] from rfl, List.append_nil]
  | cons e es ih =>
    intro s hinv
    show List.Sublist ((mediaRun cfg (mediaStep cfg s e) es).forwarded ++ _) _
    have h1 := ih (mediaStep cfg s e) (mediaStep_inv cfg s e hinv)
    have h2 : List.Sublist
        ((mediaStep cfg s e).forwarded ++ (mediaStep cfg s e).audioQueue ++ mediaArrivals es)
        (s.forwarded ++ s.audioQueue ++ arrivalsOf e ++ mediaArrivals es) :=
      (mediaStep_sublist cfg s e hinv).append_right _
    have h3 := h1.trans h2
    have harr : arrivalsOf e ++ mediaArrivals es = mediaArrivals (e :: es) := by
      cases e <;> rfl
    have heq : s.forwarded ++ s.audioQueue ++ arrivalsOf e ++ mediaArrivals es
        = s.forwarded ++ s.audioQueue ++ mediaArrivals (e :: es) := by
      rw [List.append_assoc (s.forwarded ++ s.audioQueue), harr]
    exact heq ▸ h3

/-- C7: (i) while the AI session is not yet ready, queued frames are the
suffix of all arrivals with exactly the oldest discarded beyond the
400-frame cap; (ii) over any event sequence from a fresh connection the
forwarded frames are an order-preserving selection of the arrivals, so
distinct arrivals are never duplicated; (iii) the open-time flush sends
the whole queue in FIFO order and empties it. -/
theorem C7_queue_fifo_overflow (cfg : MediaCfg) :
    (∀ frames : List Nat,
      (mediaRun cfg initMediaState (frames.map MediaEvent.media)).audioQueue
        = frames.drop (frames.length - MAX_QUEUE_FRAMES)) ∧
    (∀ events : List MediaEvent,
      List.Sublist ((mediaRun cfg initMediaState events).forwarded)
        (mediaArrivals events) ∧
      ((mediaArrivals events).Nodup →
        ((mediaRun cfg initMediaState events).forwarded).Nodup)) ∧
    (∀ s : MediaState, s.wsOpen = true → s.openaiReady = true →
      s.sessionConfigured = true → s.callEnding = false → s.callEnded = false →
      (flushAudioQueue s).forwarded = s.forwarded ++ s.audioQueue ∧
      (flushAudioQueue s).audioQueue = []) := by
  refine ⟨fun frames => ?_, fun events => ?_, fun s hw ho hc he1 he2 => ?_⟩
  · have h := mediaRun_queue_lastN cfg frames initMediaState rfl rfl rfl rfl
      (Nat.zero_le _)
    rw [show initMediaState.audioQueue = [] from rfl, List.nil_append] at h
    exact h
  · have hrun := mediaRun_sublist cfg events initMediaState (fun h => rfl)
    have hfwd : List.Sublist ((mediaRun cfg initMediaState events).forwarded)
        (mediaArrivals events) := by
      refine List.Sublist.trans
        (List.sublist_append_left _ ((mediaRun cfg initMediaState events).audioQueue)) ?_
      simpa using hrun
    exact ⟨hfwd, fun hnd => hfwd.nodup hnd⟩
  · unfold flushAudioQueue
    rw [if_neg (by simp [hw]), if_neg (by simp [he1, he2]),
        if_neg (by simp [ho, hc])]
    exact ⟨rfl, rfl⟩

/-- Concrete event trace for the C7 witness: two frames queued before the
AI socket opens, a flush on open, then one directly forwarded frame. -/
def c7events : List MediaEvent :=
  [MediaEvent.media 1, MediaEvent.media 2, MediaEvent.aiOpen, MediaEvent.media 3]

/-- A concrete ready state with a backlog, for the C7 flush conjunct. -/
def c7flushState : MediaState where
  wsOpen := true
  openaiReady := true
  sessionConfigured := true
  callEnding := false
  callEnded := false
  assistantSpeaking := false
  audioQueue := [1, 2]
  forwarded := [9]
  userFramesSinceLastCreate := 0

theorem C7_queue_fifo_overflow_witness :
    (mediaArrivals c7events).Nodup ∧
    ((mediaRun { halfDuplex := false } initMediaState c7events).forwarded).Nodup ∧
    (flushAudioQueue c7flushState).forwarded = [9, 1, 2] :=
  ⟨by decide,
   ((C7_queue_fifo_overflow { halfDuplex := false }).2.1 c7events).2 (by decide),
   ((C7_queue_fifo_overflow { halfDuplex := false }).2.2 c7flushState
      rfl rfl rfl rfl rfl).1.trans (by decide)⟩

/-! ### C8: half-duplex excludes barge-in -/

/-- Helper: in half-duplex mode a barge-in step with no pending timer
keeps the timer cleared and produces no cancellation. -/
theorem bargeStep_half_duplex (cfg : BargeCfg) (hb : cfg.halfDuplex = true)
    (s : BargeState) (e : BargeEvent) (h : s.bargeinTimer = none) :
    (bargeStep cfg s e).1.bargeinTimer = none ∧ (bargeStep cfg s e).2 = [] := by
  cases e with
  | speechStart t =>
    refine ⟨?_, rfl⟩
    show (onSpeechStarted cfg t s).bargeinTimer = none
    unfold onSpeechStarted
    dsimp only
    rw [if_pos hb]
    exact h
  | speechStop t => exact ⟨rfl, rfl⟩
  | timerFire t =>
    have hne : ¬ s.bargeinTimer = some t := by rw [h]; simp
    simp only [bargeStep, onBargeinTimerFire, if_neg hne]
    exact ⟨h, rfl⟩
  | respStart t => exact ⟨h, rfl⟩
  | respDone t => exact ⟨h, rfl⟩

/-- Helper: in half-duplex mode a run started with no pending timer
never emits a barge-in cancellation. -/
theorem bargeRun_no_cancel_of_none (cfg : BargeCfg) (hb : cfg.halfDuplex = true) :
    ∀ (events : List BargeEvent) (s : BargeState), s.bargeinTimer = none →
      (bargeRun cfg s events).2 = [] := by
  intro events
  induction events with
  | nil => intro s _; rfl
  | cons e es ih =>
    intro s h
    have hstep := bargeStep_half_duplex cfg hb s e h
    show (bargeStep cfg s e).2 ++ (bargeRun cfg (bargeStep cfg s e).1 es).2 = []
    rw [hstep.2, ih _ hstep.1]
    rfl

/-- C8: with `MB_HALF_DUPLEX` enabled, (i) a caller frame arriving while
the assistant speaks leaves the media state untouched (neither forwarded
nor queued), (ii) a speech start only records the speech flag — it never
arms the barge-in timer — and (iii) a whole call never emits a
`response.cancel` barge-in. -/
theorem C8_half_duplex_excludes_bargein (mcfg : MediaCfg) (bcfg : BargeCfg)
    (hm : mcfg.halfDuplex = true) (hb : bcfg.halfDuplex = true) :
    (∀ (s : MediaState) (p : Nat), s.assistantSpeaking = true →
      mediaHandler mcfg s p = s) ∧
    (∀ (t : Nat) (s : BargeState),
      onSpeechStarted bcfg t s = { s with speechActive := true }) ∧
    (∀ events : List BargeEvent,
      (bargeRun bcfg initBargeState events).2 = []) := by
  refine ⟨fun s p hsp => ?_, fun t s => ?_, fun events => ?_⟩
  · unfold mediaHandler
    by_cases hend : s.callEnding = true ∨ s.callEnded = true
    · rw [if_pos hend]
    · rw [if_neg hend, if_pos ⟨hm, hsp⟩]
  · unfold onSpeechStarted
    dsimp only
    rw [if_pos hb]
  · exact bargeRun_no_cancel_of_none bcfg hb events initBargeState rfl

/-- A concrete live media state with the assistant speaking, for C8. -/
def c8speakState : MediaState where
  wsOpen := true
  openaiReady := true
  sessionConfigured := true
  callEnding := false
  callEnded := false
  assistantSpeaking := true
  audioQueue := []
  forwarded := []
  userFramesSinceLastCreate := 0

/-- Half-duplex barge configuration (env defaults except MB_HALF_DUPLEX
and MB_BARGEIN_ENABLED both on). -/
def c8bcfg : BargeCfg where
  halfDuplex := true
  bargeinEnabled := true
  minMs := 250
  cooldownMs := 600

/-- A half-duplex call trace: a turn starts, speech persists past minMs
and the one-shot deadline passes. -/
def c8events : List BargeEvent :=
  [BargeEvent.respStart 0, BargeEvent.speechStart 100, BargeEvent.timerFire 350]

theorem C8_half_duplex_excludes_bargein_witness :
    mediaHandler { halfDuplex := true } c8speakState 7 = c8speakState ∧
    (bargeRun c8bcfg initBargeState c8events).2 = [] :=
  ⟨(C8_half_duplex_excludes_bargein { halfDuplex := true } c8bcfg rfl rfl).1
      c8speakState 7 rfl,
   (C8_half_duplex_excludes_bargein { halfDuplex := true } c8bcfg rfl rfl).2.2
      c8events⟩

/-! ### C5: barge-in minimum-speech window and cooldown -/

/-- A cancellation at time `t` is justified by the trace: a speech start
at exactly `t - minMs` precedes the timer fire at `t` with no speech
stop in between, so speech persisted continuously for `minMs`. -/
def cancelWindowOk (cfg : BargeCfg) (events : List BargeEvent) (t : Nat) : Prop :=
  cfg.minMs ≤ t ∧
  ∃ p1 p2 p3, events
      = p1 ++ BargeEvent.speechStart (t - cfg.minMs)
          :: (p2 ++ BargeEvent.timerFire t :: p3) ∧
    noStop p2 = true

/-- A pending one-shot timer is justified by the processed prefix:
speech is active, the deadline is the arming speech start plus `minMs`,
and no speech stop has occurred since that start. -/
def timerInv (cfg : BargeCfg) (processed : List BargeEvent) (s : BargeState) : Prop :=
  ∀ d, s.bargeinTimer = some d → s.speechActive = true ∧ cfg.minMs ≤ d ∧
    ∃ p1 p2, processed = p1 ++ BargeEvent.speechStart (d - cfg.minMs) :: p2 ∧
      noStop p2 = true

/-- Helper: appending a non-stop event to the processed prefix preserves
the timer justification, as long as the step kept the timer and did not
clear the speech flag. -/
theorem timerInv_append_nonstop (cfg : BargeCfg) (processed : List BargeEvent)
    (e : BargeEvent) (he : isStopEvent e = false) (s sn : BargeState)
    (hinv : timerInv cfg processed s)
    (ht : sn.bargeinTimer = s.bargeinTimer)
    (hsp : s.speechActive = true → sn.speechActive = true) :
    timerInv cfg (processed ++ [e]) sn := by
  intro d hd
  rw [ht] at hd
  obtain ⟨ha, hm, p1, p2, hdec, hns⟩ := hinv d hd
  refine ⟨hsp ha, hm, p1, p2 ++ [e], ?_, ?_⟩
  · rw [hdec]
    simp
  · unfold noStop at hns ⊢
    simp [List.all_append, hns, he]

/-- Helper: `onSpeechStarted` always sets the speech flag, never touches
the cooldown timestamp, and either keeps the timer or arms it for
`t + minMs`. -/
theorem onSpeechStarted_fields (cfg : BargeCfg) (t : Nat) (s : BargeState) :
    (onSpeechStarted cfg t s).speechActive = true ∧
    (onSpeechStarted cfg t s).lastBargeinAt = s.lastBargeinAt ∧
    ((onSpeechStarted cfg t s).bargeinTimer = s.bargeinTimer ∨
     (onSpeechStarted cfg t s).bargeinTimer = some (t + cfg.minMs)) := by
  unfold onSpeechStarted
  dsimp only
  split_ifs <;>
    first
      | exact ⟨rfl, rfl, Or.inl rfl⟩
      | exact ⟨rfl, rfl, Or.inr rfl⟩

/-- Helper: the one-shot fire either cancels — with a matching pending
deadline, active speech, a turn in flight and the cooldown elapsed — or
is a no-op that at most clears the timer. -/
theorem onBargeinTimerFire_spec (cfg : BargeCfg) (t : Nat) (s : BargeState) :
    (s.bargeinTimer = some t ∧ s.speechActive = true ∧ s.responseInFlight = true ∧
      ¬ t - s.lastBargeinAt < cfg.cooldownMs ∧
      onBargeinTimerFire cfg t s
        = ({ s with bargeinTimer := none, lastBargeinAt := t }, true)) ∨
    ((onBargeinTimerFire cfg t s).2 = false ∧
      ((onBargeinTimerFire cfg t s).1.bargeinTimer = none ∨
        (onBargeinTimerFire cfg t s).1.bargeinTimer = s.bargeinTimer) ∧
      (onBargeinTimerFire cfg t s).1.speechActive = s.speechActive ∧
      (onBargeinTimerFire cfg t s).1.lastBargeinAt = s.lastBargeinAt) := by
  by_cases h1 : s.bargeinTimer = some t
  · by_cases h2 : s.speechActive = true
    · by_cases h3 : s.responseInFlight = true
      · by_cases h4 : t - s.lastBargeinAt < cfg.cooldownMs
        · refine Or.inr ?_
          unfold onBargeinTimerFire
          dsimp only
          rw [if_pos h1, if_neg (not_not_intro h2), if_neg (not_not_intro h3),
            if_pos h4]
          exact ⟨rfl, Or.inl rfl, rfl, rfl⟩
        · refine Or.inl ⟨h1, h2, h3, h4, ?_⟩
          unfold onBargeinTimerFire
          dsimp only
          rw [if_pos h1, if_neg (not_not_intro h2), if_neg (not_not_intro h3),
            if_neg h4]
      · refine Or.inr ?_
        unfold onBargeinTimerFire
        dsimp only
        rw [if_pos h1, if_neg (not_not_intro h2), if_pos h3]
        exact ⟨rfl, Or.inl rfl, rfl, rfl⟩
    · refine Or.inr ?_
      unfold onBargeinTimerFire
      dsimp only
      rw [if_pos h1, if_pos h2]
      exact ⟨rfl, Or.inl rfl, rfl, rfl⟩
  · refine Or.inr ?_
    unfold onBargeinTimerFire
    dsimp only
    rw [if_neg h1]
    exact ⟨rfl, Or.inr rfl, rfl, rfl⟩

/-- Helper: main barge-in run invariant.  Over chronologically ordered
remaining events, starting from a state whose pending timer is justified
by the processed prefix and whose last barge-in precedes all remaining
events, all emitted cancellations are cooldown-spaced and each is
justified by a continuous `minMs` speech window in the full trace. -/
theorem bargeRun_cancel_spec (cfg : BargeCfg) :
    ∀ (rest : List BargeEvent) (s : BargeState) (processed : List BargeEvent),
      List.Pairwise (fun a b => eventTime a ≤ eventTime b) rest →
      timerInv cfg processed s →
      (∀ e ∈ rest, s.lastBargeinAt ≤ eventTime e) →
      List.Chain' (fun a b => a + cfg.cooldownMs ≤ b)
          (s.lastBargeinAt :: (bargeRun cfg s rest).2) ∧
      ∀ t ∈ (bargeRun cfg s rest).2, cancelWindowOk cfg (processed ++ rest) t := by
  intro rest
  induction rest with
  | nil =>
    intro s processed _ _ _
    exact ⟨List.chain'_singleton _, fun t ht => absurd ht (List.not_mem_nil t)⟩
  | cons e es ih =>
    intro s processed hchr hinv hlast
    obtain ⟨hhead, htail⟩ := List.pairwise_cons.mp hchr
    cases e with
    | speechStart t =>
      obtain ⟨hsa, hlb, htimer⟩ := onSpeechStarted_fields cfg t s
      have hinv' : timerInv cfg (processed ++ [BargeEvent.speechStart t])
          (onSpeechStarted cfg t s) := by
        rcases htimer with hsame | hnew
        · exact timerInv_append_nonstop cfg processed (BargeEvent.speechStart t) rfl
            s (onSpeechStarted cfg t s) hinv hsame (fun _ => hsa)
        · intro d hd
          rw [hnew] at hd
          have hdt : t + cfg.minMs = d := Option.some.inj hd
          refine ⟨hsa, by omega, processed, [], ?_, rfl⟩
          have h1 : d - cfg.minMs = t := by omega
          rw [h1]
      have hlast' : ∀ e2 ∈ es,
          (onSpeechStarted cfg t s).lastBargeinAt ≤ eventTime e2 := by
        intro e2 he2
        rw [hlb]
        exact hlast e2 (List.mem_cons_of_mem _ he2)
      have ihr := ih (onSpeechStarted cfg t s) (processed ++ [BargeEvent.speechStart t])
        htail hinv' hlast'
      have hrun : (bargeRun cfg s (BargeEvent.speechStart t :: es)).2
          = (bargeRun cfg (onSpeechStarted cfg t s) es).2 := rfl
      rw [hrun]
      refine ⟨?_, ?_⟩
      · rw [← hlb]
        exact ihr.1
      · intro u hu
        have := ihr.2 u hu
        rwa [List.append_assoc, List.singleton_append] at this
    | speechStop t =>
      have hinv' : timerInv cfg (processed ++ [BargeEvent.speechStop t])
          (onSpeechStopped s) := by
        intro d hd
        simp [onSpeechStopped] at hd
      have hlast' : ∀ e2 ∈ es,
          (onSpeechStopped s).lastBargeinAt ≤ eventTime e2 := by
        intro e2 he2
        exact hlast e2 (List.mem_cons_of_mem _ he2)
      have ihr := ih (onSpeechStopped s) (processed ++ [BargeEvent.speechStop t])
        htail hinv' hlast'
      have hrun : (bargeRun cfg s (BargeEvent.speechStop t :: es)).2
          = (bargeRun cfg (onSpeechStopped s) es).2 := rfl
      rw [hrun]
      refine ⟨ihr.1, ?_⟩
      intro u hu
      have := ihr.2 u hu
      rwa [List.append_assoc, List.singleton_append] at this
    | timerFire t =>
      have hrun2 : (bargeRun cfg s (BargeEvent.timerFire t :: es)).2
          = (if (onBargeinTimerFire cfg t s).2 = true then [t] else [])
            ++ (bargeRun cfg (onBargeinTimerFire cfg t s).1 es).2 := rfl
      rcases onBargeinTimerFire_spec cfg t s with
        ⟨hmt, hsa, hrif, hcd, heq⟩ | ⟨hc2, htm, hsp2, hlb2⟩
      · obtain ⟨hsa2, hm, p1, p2, hdec, hns⟩ := hinv t hmt
        have hinv' : timerInv cfg (processed ++ [BargeEvent.timerFire t])
            ({ s with bargeinTimer := none, lastBargeinAt := t } : BargeState) := by
          intro d hd
          simp at hd
        have hlast' : ∀ e2 ∈ es,
            ({ s with bargeinTimer := none, lastBargeinAt := t } : BargeState).lastBargeinAt
              ≤ eventTime e2 := by
          intro e2 he2
          exact hhead e2 he2
        have ihr := ih ({ s with bargeinTimer := none, lastBargeinAt := t } : BargeState)
          (processed ++ [BargeEvent.timerFire t]) htail hinv' hlast'
        rw [hrun2, heq]
        dsimp only
        rw [if_pos rfl]
        refine ⟨?_, ?_⟩
        · have h1 : s.lastBargeinAt ≤ t :=
            hlast (BargeEvent.timerFire t) (List.mem_cons_self _ _)
          have h2 : s.lastBargeinAt + cfg.cooldownMs ≤ t := by omega
          exact List.chain'_cons.mpr ⟨h2, ihr.1⟩
        · intro u hu
          rcases List.mem_append.mp hu with hu1 | hu2
          · have hut : u = t := by simpa using hu1
            subst hut
            refine ⟨hm, p1, p2, es, ?_, hns⟩
            rw [hdec]
            simp
          · have := ihr.2 u hu2
            rwa [List.append_assoc, List.singleton_append] at this
      · have hinv' : timerInv cfg (processed ++ [BargeEvent.timerFire t])
            (onBargeinTimerFire cfg t s).1 := by
          rcases htm with htm | htm
          · intro d hd
            rw [htm] at hd
            simp at hd
          · exact timerInv_append_nonstop cfg processed (BargeEvent.timerFire t) rfl
              s (onBargeinTimerFire cfg t s).1 hinv htm
              (fun h => by rw [hsp2]; exact h)
        have hlast' : ∀ e2 ∈ es,
            (onBargeinTimerFire cfg t s).1.lastBargeinAt ≤ eventTime e2 := by
          intro e2 he2
          rw [hlb2]
          exact hlast e2 (List.mem_cons_of_mem _ he2)
        have ihr := ih (onBargeinTimerFire cfg t s).1
          (processed ++ [BargeEvent.timerFire t]) htail hinv' hlast'
        rw [hrun2, hc2]
        rw [if_neg Bool.false_ne_true, List.nil_append]
        refine ⟨?_, ?_⟩
        · rw [← hlb2]
          exact ihr.1
        · intro u hu
          have := ihr.2 u hu
          rwa [List.append_assoc, List.singleton_append] at this
    | respStart t =>
      have hinv' : timerInv cfg (processed ++ [BargeEvent.respStart t])
          ({ s with responseInFlight := true } : BargeState) :=
        timerInv_append_nonstop cfg processed (BargeEvent.respStart t) rfl
          s ({ s with responseInFlight := true } : BargeState) hinv rfl (fun h => h)
      have hlast' : ∀ e2 ∈ es,
          ({ s with responseInFlight := true } : BargeState).lastBargeinAt
            ≤ eventTime e2 := by
        intro e2 he2
        exact hlast e2 (List.mem_cons_of_mem _ he2)
      have ihr := ih ({ s with responseInFlight := true } : BargeState)
        (processed ++ [BargeEvent.respStart t]) htail hinv' hlast'
      have hrun : (bargeRun cfg s (BargeEvent.respStart t :: es)).2
          = (bargeRun cfg ({ s with responseInFlight := true } : BargeState) es).2 := rfl
      rw [hrun]
      refine ⟨ihr.1, ?_⟩
      intro u hu
      have := ihr.2 u hu
      rwa [List.append_assoc, List.singleton_append] at this
    | respDone t =>
      have hinv' : timerInv cfg (processed ++ [BargeEvent.respDone t])
          ({ s with responseInFlight := false } : BargeState) :=
        timerInv_append_nonstop cfg processed (BargeEvent.respDone t) rfl
          s ({ s with responseInFlight := false } : BargeState) hinv rfl (fun h => h)
      have hlast' : ∀ e2 ∈ es,
          ({ s with responseInFlight := false } : BargeState).lastBargeinAt
            ≤ eventTime e2 := by
        intro e2 he2
        exact hlast e2 (List.mem_cons_of_mem _ he2)
      have ihr := ih ({ s with responseInFlight := false } : BargeState)
        (processed ++ [BargeEvent.respDone t]) htail hinv' hlast'
      have hrun : (bargeRun cfg s (BargeEvent.respDone t :: es)).2
          = (bargeRun cfg ({ s with responseInFlight := false } : BargeState) es).2 := rfl
      rw [hrun]
      refine ⟨ihr.1, ?_⟩
      intro u hu
      have := ihr.2 u hu
      rwa [List.append_assoc, List.singleton_append] at this

/-- C5: over any chronologically ordered call trace, every barge-in
cancellation time `t` is covered by a speech start at exactly
`t - minMs` with no speech stop before the one-shot fires (continuous
speech for at least `MB_BARGEIN_MIN_MS`), and consecutive cancellations
— starting from the initial `lastBargeinAt = 0` — are separated by at
least `MB_BARGEIN_COOLDOWN_MS`; a burst whose stop precedes the deadline
clears the timer and can never cancel. -/
theorem C5_bargein_min_speech_and_cooldown (cfg : BargeCfg)
    (events : List BargeEvent) (hchr : chrono events) :
    List.Chain' (fun a b => a + cfg.cooldownMs ≤ b)
      (initBargeState.lastBargeinAt :: (bargeRun cfg initBargeState events).2) ∧
    ∀ t ∈ (bargeRun cfg initBargeState events).2, cancelWindowOk cfg events t := by
  have h := bargeRun_cancel_spec cfg events initBargeState [] hchr
    (fun d hd => by simp [initBargeState] at hd) (fun e _ => Nat.zero_le _)
  exact ⟨h.1, fun t ht => h.2 t ht⟩

/-- Barge-in-enabled configuration with the env-default windows. -/
def c5cfg : BargeCfg where
  halfDuplex := false
  bargeinEnabled := true
  minMs := 250
  cooldownMs := 600

/-- A trace in which speech persists past the 250 ms one-shot deadline
while a turn is in flight, producing one barge-in cancellation. -/
def c5events : List BargeEvent :=
  [BargeEvent.respStart 1000, BargeEvent.speechStart 10000,
   BargeEvent.timerFire 10250, BargeEvent.speechStop 10300]

theorem C5_bargein_min_speech_and_cooldown_witness :
    chrono c5events ∧
    (bargeRun c5cfg initBargeState c5events).2 = [10250] ∧
    (∀ t ∈ (bargeRun c5cfg initBargeState c5events).2,
      cancelWindowOk c5cfg c5events t) :=
  ⟨by unfold chrono; decide, by decide,
   (C5_bargein_min_speech_and_cooldown c5cfg c5events (by unfold chrono; decide)).2⟩

end VoiceBot
